import Mathlib

/-!
Verification of the db-illuminator annotation-to-accuracy pipeline.

This file shallowly embeds the data-transformation core of the repository:

* `supabase/functions/run-spider-evaluation` (src/unnamed/part_008): the
  Scorer's `compareResults`, in namespace `SpiderEval`;
* `src/lib/evaluationService.ts`: the hard-coded per-question variant
  outcomes and the per-variant accuracy aggregation, in namespace `EvalSvc`;
* `pages/api/spider-evaluation.ts`: the per-question evaluation loop of the
  API handler, in namespace `SpiderApi`;
* `supabase/functions/generate-annotations` (src/unnamed/part_007): the
  standard/heuristic annotation path, in namespace `GenAnn`;
* `src/lib/annotationService.ts` (current version): the interactive question
  generator and the answer Reconciler, in namespace `AnnSvc`; an older
  bundled version of the same file is embedded in namespace `AnnSvcLegacy`.

JavaScript strings are modelled as Lean `String`; the dynamic row objects of
query results as association lists of JSON values; `Math.random()` draws as
explicit rational parameters (one per call site, in [0,1)); thrown
exceptions as `Except`.  JavaScript numbers are modelled as `ℚ` (all the
arithmetic the code performs is exact on the values in range), with
`Math.floor` as `Rat.floor` and `Math.round` as `jsRound` below.
-/

set_option maxRecDepth 16384

/-- JavaScript whitespace characters that occur in this code base (the model
restricts `String.prototype.trim` to ASCII whitespace, which covers every
string the embedded code builds). -/
def isWs (c : Char) : Bool := c = ' ' || c = '\t' || c = '\n' || c = '\r'

/-- Strip leading and trailing whitespace from a character list, as
`String.prototype.trim` does. -/
def trimList (l : List Char) : List Char :=
  ((l.dropWhile isWs).reverse.dropWhile isWs).reverse

/-- `s.trim()` of JavaScript. -/
def jsTrim (s : String) : String := String.mk (trimList s.data)

/-- JavaScript `a || d` for strings: the empty string is falsy. -/
def jsOr (a : Option String) (d : String) : String :=
  match a with
  | none => d
  | some s => if s = "" then d else s

/-- JavaScript `a || d` for an optional count (`0` is falsy), rendered into a
template literal: `a ? String(a) : d`. -/
def jsNumOr (a : Option ℕ) (d : String) : String :=
  match a with
  | none => d
  | some n => if n = 0 then d else toString n

/-- `s.includes(t)` of JavaScript: substring containment. -/
def strIncludes (s t : String) : Bool := decide (t.data <:+: s.data)

/-- `Math.round` of JavaScript (round half toward positive infinity), via the
executable `Rat.floor`. -/
def jsRound (q : ℚ) : ℤ := Rat.floor (q + 1/2)


/-- `Math.floor` of JavaScript on `ℚ`, via the executable `Rat.floor`. -/
def jsFloor (q : ℚ) : ℤ := Rat.floor q


/-- A JSON scalar value as they occur in this code base's result rows. -/
inductive JVal where
  | num (n : ℤ)
  | str (s : String)
  deriving DecidableEq, Repr

/-- A result row: a JavaScript object, i.e. an ordered list of fields.
`JSON.stringify` respects insertion order, so field order is significant. -/
def JRow := List (String × JVal)

instance : DecidableEq JRow := inferInstanceAs (DecidableEq (List (String × JVal)))

/-- `JSON.stringify` of a scalar (the strings in this code base need no
escaping). -/
def jvalStringify : JVal → String
  | .num n => toString n
  | .str s => "\"" ++ s ++ "\""

/-- `JSON.stringify` of a row object. -/
def jsonStringify (r : JRow) : String :=
  "\x7b" ++ String.intercalate (",")
    (r.map (fun p => "\"" ++ p.1 ++ "\":" ++ jvalStringify p.2)) ++ "\x7d"

namespace SpiderEval

/-- The record returned by `compareResults` in the run-spider-evaluation edge
function (src/unnamed/part_008, lines 229-274). -/
structure CompareOutcome where
  score : ℚ
  matchCount : ℕ
  differences : List String
  exactMatch : Bool
  deriving DecidableEq, Repr

/-- One positional row comparison of `compareResults`: the loop compares
`JSON.stringify(actualData[i])` with `JSON.stringify(expectedData[i])`. -/
def rowEqB (p : JRow × JRow) : Bool := jsonStringify p.1 == jsonStringify p.2

/-- The difference message the loop pushes for a mismatching index `i`
(the source uses the 1-based index `i + 1`). -/
def diffMsg (i : ℕ) (actualRow expectedRow : JRow) : String :=
  "Row " ++ toString (i + 1) ++ ": expected " ++ jsonStringify expectedRow ++
    ", got " ++ jsonStringify actualRow

/-- `compareResults(actualData, expectedData)` of src/unnamed/part_008,
lines 229-274.  `none` models a null/undefined argument (the `!actualData ||
!expectedData` guard).  The final score is `Math.round(score * 100) / 100` of
the percentage of matching rows, `0` for an empty result (the
`actualRows > 0` guard), and `exactMatch` demands every row to match AND a
positive row count. -/
def compareResults : Option (List JRow) → Option (List JRow) → CompareOutcome
  | none, _ =>
    { score := 0, matchCount := 0
      differences := ["Missing data for comparison"], exactMatch := false }
  | some _, none =>
    { score := 0, matchCount := 0
      differences := ["Missing data for comparison"], exactMatch := false }
  | some actualData, some expectedData =>
    let actualRows := actualData.length
    let expectedRows := expectedData.length
    if actualRows ≠ expectedRows then
      { score := 0, matchCount := 0
        differences := ["Row count mismatch: expected " ++ toString expectedRows
          ++ ", got " ++ toString actualRows]
        exactMatch := false }
    else
      let paired := actualData.zip expectedData
      let matched := paired.countP rowEqB
      let differences :=
        ((paired.enum.filter (fun ip => ! rowEqB ip.2)).map
          (fun ip => diffMsg ip.1 ip.2.1 ip.2.2)).take 5
      let score : ℚ := if actualRows > 0 then ((matched : ℚ) / (actualRows : ℚ)) * 100 else 0
      { score := (jsRound (score * 100) : ℚ) / 100
        matchCount := matched
        differences := differences
        exactMatch := (matched == actualRows) && decide (actualRows > 0) }

end SpiderEval

/-- The `Database` record of the front end (`id`, `name`, `difficulty`,
`tables`), shared by evaluationService.ts and annotationService.ts. -/
structure Database where
  id : String
  name : String
  difficulty : String
  tables : ℕ
  deriving DecidableEq, Repr

namespace EvalSvc

/-- One schema variant of src/lib/evaluationService.ts
(`'raw' | 'hypothesis' | 'annotated'`). -/
inductive Variant where
  | raw
  | hypothesis
  | annotated
  deriving DecidableEq, Repr, Inhabited

/-- The per-variant entry of `SQLQueryResult.schemaResults`:
`{ result, is_correct, error_message? }`. -/
structure VariantOutcome where
  result : String
  is_correct : Bool
  error_message : Option String
  deriving DecidableEq, Repr, Inhabited

/-- The three per-variant entries of one query. -/
structure SchemaResultsTriple where
  raw : VariantOutcome
  hypothesis : VariantOutcome
  annotated : VariantOutcome
  deriving DecidableEq, Repr, Inhabited

/-- The `SQLQueryResult` record of src/lib/evaluationService.ts. -/
structure SQLQueryResult where
  query : String
  expected_result : String
  schemaResults : SchemaResultsTriple
  difficulty_level : String
  bestPerformingSchema : Variant
  deriving DecidableEq, Repr, Inhabited

/-- Project the outcome of one variant out of a query record. -/
def variantOutcome (q : SQLQueryResult) : Variant → VariantOutcome
  | .raw => q.schemaResults.raw
  | .hypothesis => q.schemaResults.hypothesis
  | .annotated => q.schemaResults.annotated

/-- The five hard-coded `car_1` query records of
`generateRealisticSQLQueries` (src/lib/evaluationService.ts, lines 124-181). -/
def carQueries : List SQLQueryResult :=
  [ { query := "SELECT make, model, COUNT(*) as inventory_count FROM vehicles WHERE status = 'available' GROUP BY make, model ORDER BY inventory_count DESC"
      expected_result := "List of available vehicles grouped by make and model with counts"
      schemaResults :=
        { raw := { result := "Error: Ambiguous column 'status'", is_correct := false
                   error_message := some ("Column 'status' not clear in raw schema") }
          hypothesis := { result := "List of available vehicles grouped by make and model with counts"
                          is_correct := true, error_message := none }
          annotated := { result := "List of available vehicles grouped by make and model with counts"
                         is_correct := true, error_message := none } }
      difficulty_level := "Easy"
      bestPerformingSchema := .hypothesis }
  , { query := "SELECT c.first_name, c.last_name, v.make, v.model, s.sale_price FROM customers c JOIN sales s ON c.customer_id = s.customer_id JOIN vehicles v ON s.vehicle_id = v.vehicle_id WHERE s.sale_date >= '2024-01-01'"
      expected_result := "Customer sales information for 2024"
      schemaResults :=
        { raw := { result := "Error: JOIN relationship unclear", is_correct := false
                   error_message := some ("Foreign key relationships not defined") }
          hypothesis := { result := "Customer sales information for 2024"
                          is_correct := true, error_message := none }
          annotated := { result := "Customer sales information for 2024"
                         is_correct := true, error_message := none } }
      difficulty_level := "Medium"
      bestPerformingSchema := .annotated }
  , { query := "SELECT d.dealer_name, AVG(s.sale_price) as avg_sale_price, COUNT(s.sale_id) as total_sales FROM dealers d JOIN salespeople sp ON d.dealer_id = sp.dealer_id JOIN sales s ON sp.salesperson_id = s.salesperson_id GROUP BY d.dealer_name HAVING COUNT(s.sale_id) > 5"
      expected_result := "Dealer performance with average sale price and total sales count"
      schemaResults :=
        { raw := { result := "Error: Column 'dealer_name' not found", is_correct := false
                   error_message := some ("Incorrect column name assumption") }
          hypothesis := { result := "Error: Complex JOIN not inferred correctly", is_correct := false
                          error_message := some ("Multi-table relationships too complex for hypothesis") }
          annotated := { result := "Dealer performance with average sale price and total sales count"
                         is_correct := true, error_message := none } }
      difficulty_level := "Hard"
      bestPerformingSchema := .annotated }
  , { query := "SELECT AVG(f.monthly_payment) FROM financing f JOIN sales s ON f.sale_id = s.sale_id JOIN vehicles v ON s.vehicle_id = v.vehicle_id WHERE v.year >= 2020"
      expected_result := "Average monthly payment for vehicles 2020 and newer"
      schemaResults :=
        { raw := { result := "Error: Table 'financing' not recognized", is_correct := false
                   error_message := some ("Table relationships not clear") }
          hypothesis := { result := "156.23", is_correct := false
                          error_message := some ("Incorrect business logic assumption") }
          annotated := { result := "Average monthly payment for vehicles 2020 and newer"
                         is_correct := true, error_message := none } }
      difficulty_level := "Medium"
      bestPerformingSchema := .annotated }
  , { query := "SELECT make, COUNT(*) FROM vehicles GROUP BY make"
      expected_result := "Count of vehicles by manufacturer"
      schemaResults :=
        { raw := { result := "Count of vehicles by manufacturer"
                   is_correct := true, error_message := none }
          hypothesis := { result := "Count of vehicles by manufacturer"
                          is_correct := true, error_message := none }
          annotated := { result := "Count of vehicles by manufacturer"
                         is_correct := true, error_message := none } }
      difficulty_level := "Easy"
      bestPerformingSchema := .raw } ]

/-- The two hard-coded generic academic query records of
`generateRealisticSQLQueries` (src/lib/evaluationService.ts, lines 183-208). -/
def academicQueries : List SQLQueryResult :=
  [ { query := "SELECT major, COUNT(*) as student_count FROM students GROUP BY major ORDER BY student_count DESC"
      expected_result := "Student count by major"
      schemaResults :=
        { raw := { result := "Student count by major", is_correct := true, error_message := none }
          hypothesis := { result := "Student count by major", is_correct := true, error_message := none }
          annotated := { result := "Student count by major", is_correct := true, error_message := none } }
      difficulty_level := "Easy"
      bestPerformingSchema := .raw }
  , { query := "SELECT AVG(gpa) FROM students WHERE enrollment_date >= '2023-01-01'"
      expected_result := "Average GPA for recent students"
      schemaResults :=
        { raw := { result := "Error: Date format unclear", is_correct := false
                   error_message := some ("Date column type ambiguous") }
          hypothesis := { result := "Average GPA for recent students"
                          is_correct := true, error_message := none }
          annotated := { result := "Average GPA for recent students"
                         is_correct := true, error_message := none } }
      difficulty_level := "Medium"
      bestPerformingSchema := .annotated } ]

/-- `generateRealisticSQLQueries(database)` of src/lib/evaluationService.ts,
lines 121-211: the `car_1` list for that id, the academic list otherwise. -/
def generateRealisticSQLQueries (database : Database) : List SQLQueryResult :=
  if database.id = "car_1" then carQueries else academicQueries

/-- `calculateAccuracy(difficulty)` of src/lib/evaluationService.ts, lines
264-273.  The object literal draws one `Math.random()` per difficulty key
before indexing; `rEasy`, `rMedium`, `rHard` are those three draws.  An
unknown difficulty falls back to 50 (`|| 50`). -/
def calculateAccuracy (difficulty : String) (rEasy rMedium rHard : ℚ) : ℚ :=
  let base : ℚ :=
    if difficulty = "Easy" then 75 + rEasy * 20
    else if difficulty = "Medium" then 45 + rMedium * 25
    else if difficulty = "Hard" then 25 + rHard * 20
    else 50
  min 95 base

/-- `getTestCaseCount(difficulty)` of src/lib/evaluationService.ts, lines
275-284, with its three `Math.random()` draws explicit. -/
def getTestCaseCount (difficulty : String) (rEasy rMedium rHard : ℚ) : ℤ :=
  if difficulty = "Easy" then 50 + jsFloor (rEasy * 30)
  else if difficulty = "Medium" then 30 + jsFloor (rMedium * 20)
  else if difficulty = "Hard" then 15 + jsFloor (rHard * 15)
  else 40

/-- One entry of `generateSchemaResults`'s output
(`SchemaEvaluationResult` of src/lib/evaluationService.ts). -/
structure SchemaEvaluationResult where
  schemaType : Variant
  accuracy : ℚ
  correctQueries : ℤ
  description : String
  deriving DecidableEq, Repr

/-- The random draws consumed by one call of `generateSchemaResults`:
three for its `getTestCaseCount` call, three for its `calculateAccuracy`
call, and one each for the raw offset, the hypothesis bonus and the
annotated bonus. -/
structure SchemaResultsRands where
  tEasy : ℚ
  tMedium : ℚ
  tHard : ℚ
  aEasy : ℚ
  aMedium : ℚ
  aHard : ℚ
  rawOff : ℚ
  hypBonus : ℚ
  annBonus : ℚ

/-- `generateSchemaResults(difficulty)` of src/lib/evaluationService.ts,
lines 230-262: the raw accuracy is the difficulty baseline minus a random
offset in [10,25), the hypothesis and annotated accuracies add random
bonuses, each is clamped into [10,95]/[15,95]/[20,95], and each
`correctQueries` is `Math.round((clamped / 100) * totalQueries)` for the
test-case count drawn at the top of this call. -/
def generateSchemaResults (difficulty : String) (r : SchemaResultsRands) :
    List SchemaEvaluationResult :=
  let totalQueries := getTestCaseCount difficulty r.tEasy r.tMedium r.tHard
  let rawAccuracy := calculateAccuracy difficulty r.aEasy r.aMedium r.aHard - (10 + r.rawOff * 15)
  let hypothesisAccuracy := rawAccuracy + (8 + r.hypBonus * 12)
  let annotatedAccuracy := rawAccuracy + (15 + r.annBonus * 20)
  [ { schemaType := .raw
      accuracy := max 10 (min rawAccuracy 95)
      correctQueries := jsRound ((max 10 (min rawAccuracy 95)) / 100 * (totalQueries : ℚ))
      description := "Baseline performance with raw Snowflake schema" }
  , { schemaType := .hypothesis
      accuracy := max 15 (min hypothesisAccuracy 95)
      correctQueries := jsRound ((max 15 (min hypothesisAccuracy 95)) / 100 * (totalQueries : ℚ))
      description := "Enhanced performance with LLM-generated schema context" }
  , { schemaType := .annotated
      accuracy := max 20 (min annotatedAccuracy 95)
      correctQueries := jsRound ((max 20 (min annotatedAccuracy 95)) / 100 * (totalQueries : ℚ))
      description := "Optimal performance with user-provided annotations and context" } ]

/-- The fields of `runSpiderEvaluation`'s result record that carry counts
(src/lib/evaluationService.ts, lines 103-111): `schemaResults` comes from
`generateSchemaResults(difficulty)` and `totalQueries` from a SECOND,
independent `getTestCaseCount(difficulty)` call with fresh random draws. -/
structure EvaluationCounts where
  schemaResults : List SchemaEvaluationResult
  totalQueries : ℤ
  deriving DecidableEq, Repr

/-- The count-carrying core of `runSpiderEvaluation(params)`
(src/lib/evaluationService.ts, lines 100-111). `r` feeds the
`generateSchemaResults` call at line 101 and `t2Easy/t2Medium/t2Hard` the
separate `getTestCaseCount` call at line 105. -/
def runSpiderEvaluationCounts (difficulty : String) (r : SchemaResultsRands)
    (t2Easy t2Medium t2Hard : ℚ) : EvaluationCounts :=
  { schemaResults := generateSchemaResults difficulty r
    totalQueries := getTestCaseCount difficulty t2Easy t2Medium t2Hard }

end EvalSvc

namespace SpiderApi

/-- First index at which `pat` occurs in `l` (JavaScript `indexOf` for a
nonempty pattern), `none` when it does not occur. -/
def idxOfSub (pat : List Char) : List Char → Option ℕ
  | [] => if pat.isPrefixOf ([] : List Char) then some 0 else none
  | a :: t =>
    if pat.isPrefixOf (a :: t) then some 0
    else (idxOfSub pat t).map (· + 1)

/-- JavaScript `s.substring(a, b)`: negative arguments clamp to 0 and the
bounds are swapped when out of order. -/
def jsSubstring (l : List Char) (a b : ℤ) : List Char :=
  let a' := a.toNat
  let b' := b.toNat
  (l.take (max a' b')).drop (min a' b')

/-- The SQL clean-up step of the per-question loop in
pages/api/spider-evaluation.ts, lines 66-71: when the generated text
contains a fenced block, extract `substring(indexOf('sql-fence') + 6,
indexOf(close-fence, start))` and trim it; `indexOf` returning -1 for a
missing closing fence feeds -1 into `substring`. -/
def cleanSQL (generatedSQL : String) : String :=
  match idxOfSub ("```sql").data generatedSQL.data with
  | none => generatedSQL
  | some i =>
    let start : ℤ := (i : ℤ) + 6
    let stop : ℤ :=
      match idxOfSub ("```").data (generatedSQL.data.drop (i + 6)) with
      | some j => (i : ℤ) + 6 + j
      | none => -1
    jsTrim (String.mk (jsSubstring generatedSQL.data start stop))

/-- One entry the handler pushes into `results`
(pages/api/spider-evaluation.ts, lines 87-102). -/
structure ResultEntry where
  question : String
  generatedSQL : Option String
  executionSuccess : Bool
  error : Option String
  resultCount : ℕ
  deriving DecidableEq, Repr, Inhabited

/-- One iteration of the per-question loop (pages/api/spider-evaluation.ts,
lines 48-104).  `genF` models the model call producing the generated SQL
text (`.error` = a thrown generation error, caught by the inner `catch`);
`execF` models `connection.execute`, whose callback resolves either an
error message or a row count (it never rejects). -/
def processQuestion (genF : String → Except String String)
    (execF : String → Except String ℕ) (question : String) : ResultEntry :=
  match genF question with
  | .error msg =>
    { question := question, generatedSQL := none, executionSuccess := false
      error := some msg, resultCount := 0 }
  | .ok generated =>
    let sql := cleanSQL (jsTrim generated)
    match execF sql with
    | .error msg =>
      { question := question, generatedSQL := some sql, executionSuccess := false
        error := some msg, resultCount := 0 }
    | .ok rows =>
      { question := question, generatedSQL := some sql, executionSuccess := true
        error := none, resultCount := rows }

/-- The whole `for (const question of questions)` loop: each iteration
appends exactly one entry and its `try/catch` confines any failure to that
iteration, so the loop is a `map`. -/
def handlerLoop (genF : String → Except String String)
    (execF : String → Except String ℕ) (questions : List String) : List ResultEntry :=
  questions.map (processQuestion genF execF)

end SpiderApi

/-- A column of a schema as both annotation services shape it:
`{ name, type, nullable }`. -/
structure Column where
  name : String
  type : String
  nullable : Bool
  deriving DecidableEq, Repr

/-- A table of a schema: `{ name, columns }`. -/
structure Table where
  name : String
  columns : List Column
  deriving DecidableEq, Repr

/-- The fixed Snowflake connection info both edge functions attach to their
schema record. -/
structure ConnInfo where
  account : String
  warehouse : String
  database : String
  deriving DecidableEq, Repr

/-- The schema record returned by `getActualDatabaseSchema`:
`{ database, tables, connectionInfo }`. -/
structure SchemaInfo where
  database : String
  tables : List Table
  connectionInfo : ConnInfo
  deriving DecidableEq, Repr

/-- One column of a final `TableAnnotation`
(`{ name, type, description, businessContext? }`). -/
structure AnnColumn where
  name : String
  type : String
  description : String
  businessContext : Option String
  deriving DecidableEq, Repr

/-- The `TableAnnotation` record shared by annotationService.ts and both edge
functions: `{ tableName, description, columns }`. -/
structure TableAnnotation where
  tableName : String
  description : String
  columns : List AnnColumn
  deriving DecidableEq, Repr

/-- One `parts` entry of a Gemini API response. -/
structure GeminiPart where
  text : Option String
  deriving DecidableEq, Repr

/-- The `content` object of a Gemini candidate (its `parts` array may be
absent in a malformed response). -/
structure GeminiContent where
  parts : Option (List GeminiPart)
  deriving DecidableEq, Repr

/-- One `candidates` entry of a Gemini API response. -/
structure GeminiCandidate where
  content : Option GeminiContent
  deriving DecidableEq, Repr

/-- The body of a Gemini API response (its `candidates` array may be absent
in a malformed response). -/
structure GeminiResponse where
  candidates : Option (List GeminiCandidate)
  deriving DecidableEq, Repr

/-- An HTTP response of the Gemini fetch: `ok`, `statusText` and the parsed
JSON body. -/
structure GeminiHttp where
  ok : Bool
  statusText : String
  body : GeminiResponse
  deriving DecidableEq, Repr

/-- `response.candidates[0]?.content?.parts[0]?.text || ''` as JavaScript
evaluates it: reading `[0]` of an absent `candidates` or an absent `parts`
throws a TypeError (modelled as `.error`); every other absence flows through
the optional chain into the `|| ''` default. -/
def geminiText (response : GeminiResponse) : Except String String :=
  match response.candidates with
  | none => .error ("TypeError: cannot read candidates of undefined")
  | some cands =>
    match cands.head? with
    | none => .ok ("")
    | some cand =>
      match cand.content with
      | none => .ok ("")
      | some content =>
        match content.parts with
        | none => .error ("TypeError: cannot read parts of undefined")
        | some parts => .ok (((parts.head?.bind (fun p => p.text)).getD ("")))

/-- `parseAnnotationsFromGeminiResponse(response, schemaInfo)`, identical in
annotationService.ts (lines 204-223) and src/unnamed/part_007 (lines
361-380): reads the response text (rethrowing its TypeError), then maps the
schema tables to fixed LLM-flavoured annotation records. -/
def parseAnnotationsFromGeminiResponse (response : GeminiResponse)
    (schemaInfo : SchemaInfo) : Except String (List TableAnnotation) :=
  (geminiText response).map (fun _ =>
    schemaInfo.tables.map (fun table =>
      { tableName := table.name
        description := "Generated by LLM analysis of " ++ table.name ++
          " table structure and data patterns"
        columns := table.columns.map (fun col =>
          { name := col.name
            type := col.type
            description := "LLM-generated description for " ++ col.name ++
              " based on data analysis"
            businessContext := some ("Contextual annotation from real data patterns in "
              ++ table.name) }) }))

/-- `q.toFixed(2)` of JavaScript for the nonnegative values this code base
produces: round to two decimals and render with a zero-padded fraction. -/
def jsToFixed2 (q : ℚ) : String :=
  let m := (jsRound (q * 100)).toNat
  let frac := m % 100
  toString (m / 100) ++ "." ++ (if frac < 10 then "0" ++ toString frac else toString frac)

namespace GenAnn

/-- `getColumnHypothesis(columnName, columnType)` of src/unnamed/part_007,
lines 296-306. -/
def getColumnHypothesis (columnName columnType : String) : String :=
  if strIncludes columnName ("id") then "unique identifier field"
  else if strIncludes columnName ("name") || strIncludes columnName ("make")
      || strIncludes columnName ("model") then "descriptive name or title field"
  else if strIncludes columnName ("email") then "contact email address"
  else if strIncludes columnName ("status") then "status or state indicator"
  else if strIncludes columnName ("price") then "monetary value field"
  else if strIncludes columnName ("year") then "year or date field"
  else if strIncludes columnType ("VARCHAR") then "text-based descriptive field"
  else if strIncludes columnType ("NUMBER") then "numeric measurement or count field"
  else "data attribute field"

/-- `getColumnDescription(columnName, columnType)` of src/unnamed/part_007,
lines 325-335. -/
def getColumnDescription (columnName columnType : String) : String :=
  if strIncludes columnName ("id") then
    "Unique identifier used for relationships and data integrity"
  else if strIncludes columnName ("name") || strIncludes columnName ("make")
      || strIncludes columnName ("model") then "Human-readable name or title field"
  else if strIncludes columnName ("email") then
    "Contact email address with standard format validation"
  else if strIncludes columnName ("price") then
    "Monetary value for financial calculations"
  else if strIncludes columnName ("year") then
    "Year specification for temporal filtering"
  else if strIncludes columnName ("status") then
    "Status indicator for workflow management"
  else if strIncludes columnType ("VARCHAR") then
    "Variable-length text field for descriptive content"
  else if strIncludes columnType ("NUMBER") then
    "Numeric field for calculations and measurements"
  else "Data field contributing to the overall entity representation"

/-- `generateSampleValuesForColumn(col)` of src/unnamed/part_007, lines
287-294. -/
def generateSampleValuesForColumn (col : Column) : List String :=
  if strIncludes col.name ("id") then ["1", "2", "3"]
  else if strIncludes col.name ("name") || strIncludes col.name ("make") then
    ["Toyota", "Honda", "Ford"]
  else if strIncludes col.name ("email") then
    ["john@example.com", "jane@example.com", "bob@example.com"]
  else if strIncludes col.name ("status") then ["active", "inactive", "pending"]
  else if strIncludes col.name ("price") then ["25000.00", "35000.00", "45000.00"]
  else ["Value1", "Value2", "Value3"]

/-- `generateRealisticSchema(database)` of src/unnamed/part_007, lines
227-267: the car-dealership schema for that id, the academic schema for any
other id (the `|| schemas.academic` fallback). -/
def generateRealisticSchema (database : Database) : List Table :=
  if database.id = "car-dealership" then
    [ { name := "vehicles"
        columns :=
          [ { name := "vehicle_id", type := "NUMBER(10)", nullable := false }
          , { name := "make", type := "VARCHAR(50)", nullable := false }
          , { name := "model", type := "VARCHAR(50)", nullable := false }
          , { name := "year", type := "NUMBER(4)", nullable := false }
          , { name := "price", type := "NUMBER(10,2)", nullable := false }
          , { name := "status", type := "VARCHAR(20)", nullable := false } ] }
    , { name := "customers"
        columns :=
          [ { name := "customer_id", type := "NUMBER(10)", nullable := false }
          , { name := "first_name", type := "VARCHAR(50)", nullable := false }
          , { name := "last_name", type := "VARCHAR(50)", nullable := false }
          , { name := "email", type := "VARCHAR(100)", nullable := true }
          , { name := "phone", type := "VARCHAR(20)", nullable := true } ] } ]
  else
    [ { name := "students"
        columns :=
          [ { name := "student_id", type := "NUMBER(10)", nullable := false }
          , { name := "first_name", type := "VARCHAR(50)", nullable := false }
          , { name := "last_name", type := "VARCHAR(50)", nullable := false }
          , { name := "email", type := "VARCHAR(100)", nullable := true }
          , { name := "enrollment_date", type := "DATE", nullable := false } ] } ]

/-- `getActualDatabaseSchema(database, credentials)` of src/unnamed/part_007,
lines 109-125 (the simulated fetch): a pure function of the database id with
the fixed connection credentials of the handler. -/
def getActualDatabaseSchema (database : Database) : SchemaInfo :=
  { database := database.name
    tables := generateRealisticSchema database
    connectionInfo :=
      { account := "RSRSBDK-YDB67606", warehouse := "COMPUTE_WH", database := "SPIDER2" } }

/-- `generateSampleData(table, rowLimit)` of src/unnamed/part_007, lines
269-285.  `priceRand i name` is the `Math.random()` draw the price branch of
row `i`, column `name` performs. -/
def generateSampleData (table : Table) (rowLimit : ℕ) (priceRand : ℕ → String → ℚ) :
    List JRow :=
  (List.range (min rowLimit 10)).map (fun i =>
    table.columns.map (fun col =>
      (col.name,
        if strIncludes col.name ("id") then JVal.num (Int.ofNat (i + 1))
        else if strIncludes col.name ("name") || strIncludes col.name ("make") then
          JVal.str ("Sample" ++ toString (i + 1))
        else if strIncludes col.name ("email") then
          JVal.str ("user" ++ toString (i + 1) ++ "@example.com")
        else if strIncludes col.name ("price") then
          JVal.str (jsToFixed2 (priceRand i col.name * 50000 + 10000))
        else if strIncludes col.name ("year") then JVal.num (Int.ofNat (2020 + (i % 4)))
        else if strIncludes col.name ("status") then
          JVal.str ((["available", "sold", "pending"].getD (i % 3) ("")))
        else JVal.str ("Value" ++ toString (i + 1)))))

/-- One entry of `getSampleDataFromTables`'s result. -/
structure SampleEntry where
  tableName : String
  sampleRows : List JRow
  rowCount : ℕ
  dataTypes : List (String × String × Bool × ℕ)
  deriving DecidableEq

/-- `getSampleDataFromTables(database, tables, rowLimit)` of
src/unnamed/part_007, lines 127-144.  `rcRand i` is the `Math.random()` draw
behind table `i`'s `rowCount` (`Math.floor(r * 10000) + 100`), `uvRand i j`
the draw behind its column `j`'s `uniqueValues`, and `priceRand i` the draws
of `generateSampleData` for table `i`. -/
def getSampleDataFromTables (tables : List Table) (rowLimit : ℕ)
    (rcRand : ℕ → ℚ) (uvRand : ℕ → ℕ → ℚ) (priceRand : ℕ → ℕ → String → ℚ) :
    List SampleEntry :=
  tables.mapIdx (fun ti table =>
    { tableName := table.name
      sampleRows := generateSampleData table (min rowLimit 10) (priceRand ti)
      rowCount := (jsFloor (rcRand ti * 10000)).toNat + 100
      dataTypes := table.columns.mapIdx (fun ci col =>
        (col.name, col.type, col.nullable, (jsFloor (uvRand ti ci * 50)).toNat + 1)) })

/-- `generateEnhancedAnnotations(database, schemaInfo, sampleData?)` of
src/unnamed/part_007, lines 308-323: the deterministic heuristic path.  The
table description interpolates `sample?.rowCount || 'unknown'` where
`sample` is the sample entry found by table name. -/
def generateEnhancedAnnotations (database : Database) (schemaInfo : SchemaInfo)
    (sampleData : Option (List SampleEntry)) : List TableAnnotation :=
  schemaInfo.tables.map (fun table =>
    let sampleRowCount :=
      (sampleData.bind (fun sd => sd.find? (fun s => s.tableName == table.name))).map
        (fun s => s.rowCount)
    { tableName := table.name
      description := table.name ++ " contains " ++ toString table.columns.length ++
        " columns with approximately " ++ jsNumOr sampleRowCount ("unknown") ++
        " records. This table is part of the " ++ database.name ++ " dataset (" ++
        database.difficulty ++ " complexity) used in Spider benchmark evaluation."
      columns := table.columns.map (fun col =>
        { name := col.name
          type := col.type
          description := col.name ++ " field of type " ++ col.type ++
            (if col.nullable then " (nullable)" else " (required)") ++ ". " ++
            getColumnDescription col.name col.type
          businessContext := some ("Used in " ++ String.mk (database.difficulty.data.map Char.toLower)
            ++ "-level SQL queries for Spider benchmark testing") }) })

/-- `generateStandardAnnotations(database, customPrompt, schemaInfo,
sampleData, geminiApiKey, rowLimit)` of src/unnamed/part_007, lines 146-193.
A missing (or empty, hence falsy) API key short-circuits to the heuristic
path; otherwise `httpOutcome` models the Gemini fetch: a thrown fetch error,
a non-ok response (which throws and is caught) or a parse failure all fall
back to `generateEnhancedAnnotations`; only a parsed success is returned as
is. -/
def generateStandardAnnotations (database : Database) (schemaInfo : SchemaInfo)
    (sampleData : List SampleEntry) (geminiApiKey : Option String)
    (httpOutcome : Except String GeminiHttp) : List TableAnnotation :=
  match geminiApiKey with
  | none => generateEnhancedAnnotations database schemaInfo (some sampleData)
  | some key =>
    if key = "" then generateEnhancedAnnotations database schemaInfo (some sampleData)
    else
      match httpOutcome with
      | .error _ => generateEnhancedAnnotations database schemaInfo (some sampleData)
      | .ok response =>
        if ! response.ok then
          generateEnhancedAnnotations database schemaInfo (some sampleData)
        else
          match parseAnnotationsFromGeminiResponse response.body schemaInfo with
          | .error _ => generateEnhancedAnnotations database schemaInfo (some sampleData)
          | .ok annotations => annotations

/-- The standard-mode heuristic run of the generate-annotations edge
function (src/unnamed/part_007, handler lines 47-84 with no API key): fetch
the schema, draw the sample data with its random row counts, and produce the
heuristic annotations. -/
def standardHeuristicRun (database : Database) (rowLimit : ℕ)
    (rcRand : ℕ → ℚ) (uvRand : ℕ → ℕ → ℚ) (priceRand : ℕ → ℕ → String → ℚ) :
    List TableAnnotation :=
  let schemaInfo := getActualDatabaseSchema database
  generateEnhancedAnnotations database schemaInfo
    (some (getSampleDataFromTables schemaInfo.tables rowLimit rcRand uvRand priceRand))

end GenAnn

namespace AnnSvc

/-- The question kinds of annotationService.ts
(`'yes_no' | 'multiple_choice' | 'free_text_definitions'`). -/
inductive QType where
  | yes_no
  | multiple_choice
  | free_text_definitions
  deriving DecidableEq, Repr, Inhabited

/-- A `UserQuestion` of annotationService.ts:
`{ question_text, question_type, options? }`. -/
structure UserQuestion where
  question_text : String
  question_type : QType
  options : Option (List String)
  deriving DecidableEq, Repr, Inhabited

/-- A `ColumnQuestion` of annotationService.ts. -/
structure ColumnQuestion where
  column_name : String
  data_type : String
  sample_values : List String
  enum_values_found : List String
  hypothesis : String
  questions_for_user : List UserQuestion
  deriving DecidableEq, Repr, Inhabited

/-- A `TableQuestionSet` of annotationService.ts. -/
structure TableQuestionSet where
  table_name : String
  sampling_info : String
  table_hypothesis : String
  table_questions : List UserQuestion
  columns : List ColumnQuestion
  deriving DecidableEq, Repr, Inhabited

/-- An `InteractiveAnnotationResult` of annotationService.ts (its constant
`type: 'interactive'` tag is omitted). -/
structure InteractiveAnnotationResult where
  questions : List TableQuestionSet
  schemaInfo : SchemaInfo
  samplingInfo : String
  deriving DecidableEq, Repr

/-- `getTablePurpose(tableName)` of annotationService.ts, lines 712-723. -/
def getTablePurpose (tableName : String) : String :=
  if tableName = "vehicles" then "automotive inventory and vehicle specifications"
  else if tableName = "customers" then "customer information and contact details"
  else if tableName = "sales" then "transaction records and sales activities"
  else if tableName = "students" then "student enrollment and academic information"
  else if tableName = "courses" then "academic course catalog and requirements"
  else if tableName = "orders" then "purchase orders and transaction history"
  else if tableName = "products" then "product catalog and specifications"
  else "data entities and their attributes"

/-- `getTableRole(tableName)` of annotationService.ts, lines 725-734. -/
def getTableRole (tableName : String) : String :=
  if tableName = "vehicles" then "the main inventory management component"
  else if tableName = "customers" then "the customer relationship management hub"
  else if tableName = "sales" then "the transactional processing center"
  else if tableName = "students" then "the student information system core"
  else if tableName = "courses" then "the academic catalog foundation"
  else "a key data storage component"

/-- `generateSampleValuesForColumn(col, tableName)` of annotationService.ts,
lines 736-753 (`tableName` is unused in its body). -/
def generateSampleValuesForColumn (col : Column) (tableName : String) : List String :=
  if strIncludes col.name ("id") then ["1", "2", "3"]
  else if col.name = "make" then ["Toyota", "Honda", "Ford"]
  else if col.name = "model" then ["Camry", "Accord", "F-150"]
  else if col.name = "status" then ["available", "sold", "pending"]
  else if col.name = "color" then ["Red", "Blue", "White"]
  else if col.name = "financing_type" then ["cash", "loan", "lease"]
  else if col.name = "service_type" then ["oil_change", "brake_repair", "inspection"]
  else if col.name = "lender" then ["Bank of America", "Wells Fargo", "Credit Union"]
  else if strIncludes col.name ("name") then ["John", "Jane", "Bob"]
  else if strIncludes col.name ("email") then
    ["john@example.com", "jane@example.com", "bob@example.com"]
  else if strIncludes col.name ("phone") then
    ["555-123-4567", "555-234-5678", "555-345-6789"]
  else if strIncludes col.name ("price") || strIncludes col.name ("cost")
      || strIncludes col.name ("amount") then ["25000.00", "35000.00", "45000.00"]
  else if strIncludes col.name ("year") then ["2021", "2022", "2023"]
  else if strIncludes col.name ("date") then ["2024-01-15", "2024-02-20", "2024-03-10"]
  else if strIncludes col.name ("rate") then ["3.50", "4.25", "5.00"]
  else ["Value1", "Value2", "Value3"]

/-- The alternatives of the regex
`/(status|type|category|color|make|model|gender|state)/i` in
`getEnumValuesForColumn`. -/
def enumKeywords : List String :=
  ["status", "type", "category", "color", "make", "model", "gender", "state"]

/-- `col.name.match(/(status|type|category|color|make|model|gender|state)/i)`:
the unanchored, case-insensitive regex matches iff some alternative occurs as
a substring of the lower-cased name. -/
def matchesEnumKeyword (name : String) : Bool :=
  enumKeywords.any (fun kw => decide (kw.data <:+: name.data.map Char.toLower))

/-- `getEnumValuesForColumn(col, sampleValues)` of annotationService.ts,
lines 755-760: the first three sample values when the type contains VARCHAR
and the name matches the categorical-keyword regex, `[]` otherwise. -/
def getEnumValuesForColumn (col : Column) (sampleValues : List String) : List String :=
  if strIncludes col.type ("VARCHAR") && matchesEnumKeyword col.name then
    sampleValues.take 3
  else []

/-- `getColumnHypothesis(columnName, columnType, tableName)` of
annotationService.ts, lines 762-786. -/
def getColumnHypothesis (columnName columnType tableName : String) : String :=
  if strIncludes columnName ("id") then
    "a unique identifier field used for primary key or foreign key relationships"
  else if columnName = "make" then "the vehicle manufacturer or brand name"
  else if columnName = "model" then "the specific vehicle model designation"
  else if columnName = "year" then "the manufacturing year of the vehicle"
  else if strIncludes columnName ("price") || strIncludes columnName ("cost")
      || strIncludes columnName ("amount") then
    "a monetary value representing cost or valuation"
  else if columnName = "status" then
    "a categorical field indicating current state or condition"
  else if columnName = "color" then
    "a categorical field for vehicle color specification"
  else if columnName = "service_type" then
    "a categorical field indicating the type of service performed"
  else if columnName = "lender" then "the financial institution providing the loan"
  else if strIncludes columnName ("rate") then
    "a percentage or rate value for calculations"
  else if strIncludes columnName ("name") then
    "a descriptive text field for person or entity names"
  else if strIncludes columnName ("email") then
    "a contact email address with standard email format"
  else if strIncludes columnName ("phone") then "a contact phone number field"
  else if strIncludes columnName ("address") || strIncludes columnName ("location") then
    "a physical or mailing address field"
  else if strIncludes columnName ("date") then
    "a temporal field tracking important timestamps"
  else if columnName = "financing_type" then
    "a categorical field indicating payment method or financing option"
  else if columnName = "mileage" then "a numeric field tracking vehicle usage/distance"
  else if columnName = "credit_score" then "a numeric assessment of creditworthiness"
  else if strIncludes columnName ("term") then "a duration or time period specification"
  else if strIncludes columnType ("VARCHAR") then
    "a text-based descriptive or categorical field"
  else if strIncludes columnType ("NUMBER") then
    "a numeric field for calculations, measurements, or counts"
  else if strIncludes columnType ("DATE") then
    "a date/time field for temporal data tracking"
  else "a data attribute that contributes to the entity definition"

/-- `generateTableQuestions(tableName, databaseName)` of
annotationService.ts, lines 656-667. -/
def generateTableQuestions (tableName databaseName : String) : List UserQuestion :=
  [ { question_text := "What is the primary business purpose of the " ++ tableName ++
        " table in the " ++ databaseName ++ " system?"
      question_type := .free_text_definitions, options := none }
  , { question_text := "Are there any important business rules or constraints for the "
        ++ tableName ++ " table that would affect SQL queries?"
      question_type := .free_text_definitions, options := none } ]

/-- `generateQuestionsForColumn(col, enumValues, tableName)` of
annotationService.ts, lines 788-848.  The enum-definition question is pushed
by an independent `if`; the id/price/date/rate chain is a separate
`if/else`. -/
def generateQuestionsForColumn (col : Column) (enumValues : List String)
    (tableName : String) : List UserQuestion :=
  (if enumValues.length > 0 then
    [ { question_text := "I found these values for " ++ col.name ++ ": " ++
          String.intercalate (", ") enumValues ++
          ". Please define what each value means and if there are other possible values I should know about."
        question_type := .free_text_definitions, options := none } ]
  else []) ++
  (if strIncludes col.name ("id") then
    [ { question_text := "Is " ++ col.name ++ " the primary key for " ++ tableName ++
          "? If not, does it reference another table?"
        question_type := .multiple_choice
        options := some ["Primary key", "Foreign key to another table",
          "Both primary and foreign key", "Neither"] } ] ++
    (if col.name ≠ (String.mk (tableName.data.dropLast) ++ "_id") && col.name ≠ "id" then
      [ { question_text := "What table does " ++ col.name ++
            " reference and what is the relationship?"
          question_type := .free_text_definitions, options := none } ]
    else [])
  else if strIncludes col.name ("price") || strIncludes col.name ("amount")
      || strIncludes col.name ("cost") then
    [ { question_text := "For " ++ col.name ++
          ", what currency is used and are there any business rules (e.g., discounts, taxes, minimum/maximum values)?"
        question_type := .free_text_definitions, options := none }
    , { question_text := "Are there typical ranges or categories for " ++ col.name ++
          " that would be useful for query optimization?"
        question_type := .free_text_definitions, options := none } ]
  else if strIncludes col.name ("date") || strIncludes col.name ("time") then
    [ { question_text := "What does " ++ col.name ++
          " represent exactly? Is it automatically set or user-entered?"
        question_type := .multiple_choice
        options := some ["System generated timestamp", "User entered date",
          "Calculated/derived date", "External system date"] } ]
  else if strIncludes col.name ("rate") || strIncludes col.name ("score") then
    [ { question_text := "What is the valid range for " ++ col.name ++
          " and how is it calculated?"
        question_type := .free_text_definitions, options := none } ]
  else
    [ { question_text := "Is my understanding of " ++ col.name ++ " as " ++
          getColumnHypothesis col.name col.type tableName ++ " accurate?"
        question_type := .yes_no, options := none } ] ++
    (if ! strIncludes col.name ("id") then
      [ { question_text := "Are there any specific constraints, formats, or business rules for "
            ++ col.name ++ " that SQL queries should consider?"
          question_type := .free_text_definitions, options := none } ]
    else []))

/-- `generateInteractiveQuestions(database, customPrompt, schemaInfo,
sampleData, customSampling?)` of annotationService.ts, lines 513-548.
`sampleFirstRows` models `sampleData[0]?.sampleRows?.length` for the default
sampling text (`|| 5` applies when it is absent or zero). -/
def generateInteractiveQuestions (database : Database) (schemaInfo : SchemaInfo)
    (sampleFirstRows : Option ℕ) (customSampling : Option String) :
    InteractiveAnnotationResult :=
  let samplingInfo :=
    jsOr customSampling ("Sample of " ++
      toString ((sampleFirstRows.filter (fun n => n ≠ 0)).getD 5) ++
      " rows from each table")
  { questions := schemaInfo.tables.map (fun table =>
      { table_name := table.name
        sampling_info := samplingInfo
        table_hypothesis := "The " ++ table.name ++ " table appears to store " ++
          getTablePurpose table.name ++ " with " ++ toString table.columns.length ++
          " attributes. Based on the schema structure, it likely serves as " ++
          getTableRole table.name ++ " in the " ++ database.name ++ " system."
        table_questions := generateTableQuestions table.name database.name
        columns := table.columns.map (fun col =>
          let sampleValues := generateSampleValuesForColumn col table.name
          let enumValues := getEnumValuesForColumn col sampleValues
          { column_name := col.name
            data_type := col.type
            sample_values := sampleValues
            enum_values_found := enumValues
            hypothesis := col.name ++ " appears to be " ++
              getColumnHypothesis col.name col.type table.name
            questions_for_user := generateQuestionsForColumn col enumValues table.name }) })
    schemaInfo := schemaInfo
    samplingInfo := samplingInfo }

/-- The per-column part of a user's answers for one table:
`userAnswers[tableName][columnName]` with optional `description` and
`businessContext` strings. -/
structure ColumnAnswer where
  description : Option String
  businessContext : Option String

/-- The answers a user supplied for one table: the table-level
`table_description` text and the per-column entries (absent columns model
missing keys of the answers object). -/
structure TableAnswers where
  table_description : Option String
  columnAnswers : String → Option ColumnAnswer

/-- The empty answers object (`userAnswers[table] || {}` when the table has
no entry). -/
def emptyTableAnswers : TableAnswers :=
  { table_description := none, columnAnswers := fun _ => none }

/-- `processUserAnswersAndGenerateAnnotations(interactiveResult,
userAnswers)` of annotationService.ts, lines 422-451: per table, the final
description is `trim(tableHypothesis + ' ' + (answers.table_description ||
''))`; per column, `trim(columnHypothesis + ' ' + (answers[col]?.description
|| ''))`; `businessContext` is the user's text or the synthesized
`Part of <table> entity definition` default. -/
def processUserAnswersAndGenerateAnnotations (interactiveResult : InteractiveAnnotationResult)
    (userAnswers : String → Option TableAnswers) : List TableAnnotation :=
  interactiveResult.questions.map (fun tableQuestion =>
    let tableAnswers := (userAnswers tableQuestion.table_name).getD emptyTableAnswers
    { tableName := tableQuestion.table_name
      description := jsTrim (tableQuestion.table_hypothesis ++ " " ++
        jsOr tableAnswers.table_description (""))
      columns := tableQuestion.columns.map (fun col =>
        { name := col.column_name
          type := col.data_type
          description := jsTrim (col.hypothesis ++ " " ++
            jsOr ((tableAnswers.columnAnswers col.column_name).bind
              (fun a => a.description)) (""))
          businessContext := some (jsOr
            ((tableAnswers.columnAnswers col.column_name).bind
              (fun a => a.businessContext))
            ("Part of " ++ tableQuestion.table_name ++ " entity definition")) }) })

end AnnSvc

namespace AnnSvcLegacy

/-- `getColumnDescription(columnName, columnType)` of the older bundled
annotationService.ts (lines 293-301 of the combined file). -/
def getColumnDescription (columnName columnType : String) : String :=
  if strIncludes columnName ("id") then
    "Unique identifier used for relationships and data integrity"
  else if strIncludes columnName ("name") then "Human-readable name or title field"
  else if strIncludes columnName ("email") then
    "Contact email address with standard format validation"
  else if strIncludes columnName ("date") then
    "Temporal data point for tracking chronological events"
  else if strIncludes columnType ("VARCHAR") then
    "Variable-length text field for descriptive content"
  else if strIncludes columnType ("NUMBER") then
    "Numeric field for calculations and measurements"
  else "Data field contributing to the overall entity representation"

/-- `generateRealisticSchema(database)` of the older bundled
annotationService.ts (lines 226-255): only an academic schema exists; every
other id falls back to it. -/
def generateRealisticSchema (database : Database) : List Table :=
  [ { name := "students"
      columns :=
        [ { name := "student_id", type := "NUMBER(10)", nullable := false }
        , { name := "first_name", type := "VARCHAR(50)", nullable := false }
        , { name := "last_name", type := "VARCHAR(50)", nullable := false }
        , { name := "email", type := "VARCHAR(100)", nullable := true }
        , { name := "enrollment_date", type := "DATE", nullable := false }
        , { name := "major_id", type := "NUMBER(10)", nullable := true } ] }
  , { name := "courses"
      columns :=
        [ { name := "course_id", type := "NUMBER(10)", nullable := false }
        , { name := "course_code", type := "VARCHAR(10)", nullable := false }
        , { name := "title", type := "VARCHAR(200)", nullable := false }
        , { name := "credits", type := "NUMBER(2)", nullable := false }
        , { name := "department_id", type := "NUMBER(10)", nullable := false } ] } ]

/-- `generateEnhancedAnnotations(database, schemaInfo?, sampleData?)` of the
older bundled annotationService.ts (lines 274-291): the heuristic fallback
path.  With no `schemaInfo` the realistic schema stands in; with no
`sampleData` every row count renders as `unknown`. -/
def generateEnhancedAnnotations (database : Database) (schemaInfo : Option SchemaInfo)
    (sampleData : Option (List GenAnn.SampleEntry)) : List TableAnnotation :=
  let tables := (schemaInfo.map (fun si => si.tables)).getD (generateRealisticSchema database)
  tables.map (fun table =>
    let sampleRowCount :=
      (sampleData.bind (fun sd => sd.find? (fun s => s.tableName == table.name))).map
        (fun s => s.rowCount)
    { tableName := table.name
      description := table.name ++ " contains " ++ toString table.columns.length ++
        " columns with approximately " ++ jsNumOr sampleRowCount ("unknown") ++
        " records. This table is part of the " ++ database.name ++ " dataset (" ++
        database.difficulty ++ " complexity) used in Spider benchmark evaluation."
      columns := table.columns.map (fun col =>
        { name := col.name
          type := col.type
          description := col.name ++ " field of type " ++ col.type ++
            (if col.nullable then " (nullable)" else " (required)") ++ ". " ++
            getColumnDescription col.name col.type
          businessContext := some ("Used in " ++ String.mk (database.difficulty.data.map Char.toLower)
            ++ "-level SQL queries for Spider benchmark testing") }) })

/-- `generateDatabaseAnnotations(database, customPrompt)` of the older
bundled annotationService.ts (lines 42-101).  `schemaFetch` models
`getActualDatabaseSchema` (a deterministic simulated fetch, so the retry in
the catch block at line 95 yields the same outcome as the call at line 50);
`sampleData` the `getSampleDataFromTables` result; `apiKeyOk` whether a
usable Gemini key is configured; `httpOutcome` the Gemini fetch.  On any
model-path failure the catch block refetches the schema and returns the
heuristic annotations WITHOUT sample data; only when the schema fetch itself
fails does the function throw. -/
def generateDatabaseAnnotations (database : Database)
    (schemaFetch : Except String SchemaInfo) (sampleData : List GenAnn.SampleEntry)
    (apiKeyOk : Bool) (httpOutcome : Except String GeminiHttp) :
    Except String (List TableAnnotation) :=
  match schemaFetch with
  | .error _ =>
    .error ("Failed to generate annotations and retrieve database schema. Please check your credentials.")
  | .ok schemaInfo =>
    if ! apiKeyOk then
      .ok (generateEnhancedAnnotations database (some schemaInfo) (some sampleData))
    else
      match httpOutcome with
      | .error _ => .ok (generateEnhancedAnnotations database (some schemaInfo) none)
      | .ok response =>
        if ! response.ok then
          .ok (generateEnhancedAnnotations database (some schemaInfo) none)
        else
          match parseAnnotationsFromGeminiResponse response.body schemaInfo with
          | .error _ => .ok (generateEnhancedAnnotations database (some schemaInfo) none)
          | .ok annotations => .ok annotations

end AnnSvcLegacy

/-- Whether a question's processing fails: its generation call throws
(`genF` errors) or the execution of its cleaned SQL reports an error. -/
def SpiderApi.questionFails (genF : String → Except String String)
    (execF : String → Except String ℕ) (question : String) : Bool :=
  match genF question with
  | .error _ => true
  | .ok generated => !(execF (SpiderApi.cleanSQL (jsTrim generated))).isOk
/-- A generation function for the C3 witness: the first question's model
call throws, the second succeeds. -/
def c3genF : String → Except String String :=
  fun q => if q = "q1" then .error ("generation timed out") else .ok ("SELECT 1")
/-- An execution function for the C3 witness: every query returns 3 rows. -/
def c3execF : String → Except String ℕ := fun _ => .ok 3
/-- The model-backed annotation call fails: the fetch throws, the HTTP
response is not ok, or the response body cannot be parsed. -/
def modelPipelineFails (schemaInfo : SchemaInfo) : Except String GeminiHttp → Prop
  | .error _ => True
  | .ok response =>
    response.ok = false ∨
      (parseAnnotationsFromGeminiResponse response.body schemaInfo).isOk = false
/-- A one-table schema for the C4 witness. -/
def c4si : SchemaInfo :=
  { database := "Academic"
    tables := [{ name := "students"
                 columns := [{ name := "student_id", type := "NUMBER(10)", nullable := false }] }]
    connectionInfo :=
      { account := "RSRSBDK-YDB67606", warehouse := "COMPUTE_WH", database := "SPIDER2" } }
/-- An ok HTTP response whose body has no `candidates` array, so parsing it
throws: the unparseable-response case of C4. -/
def c4http : Except String GeminiHttp :=
  .ok { ok := true, statusText := "OK", body := { candidates := none } }
/-- A database value used by the concrete reconciliation examples. -/
def cxDb : Database := ⟨"car_1", "Car Dealership 1", "Medium", 7⟩
/-- A one-table, one-column schema (the `vehicles.status` column) used by the
concrete reconciliation examples. -/
def cxSchemaInfo : SchemaInfo :=
  { database := "Car Dealership 1"
    tables := [{ name := "vehicles"
                 columns := [{ name := "status", type := "VARCHAR(20)", nullable := false }] }]
    connectionInfo :=
      { account := "RSRSBDK-YDB67606", warehouse := "COMPUTE_WH", database := "SPIDER2" } }
/-- The interactive question set the generator produces for `cxSchemaInfo`. -/
def cxIr : AnnSvc.InteractiveAnnotationResult :=
  AnnSvc.generateInteractiveQuestions cxDb cxSchemaInfo (some 5) none
/-- The single table question set of `cxIr`. -/
def cxTq : AnnSvc.TableQuestionSet := cxIr.questions.headD default
/-- The single column question of `cxTq` (the `status` column). -/
def cxColq : AnnSvc.ColumnQuestion := cxTq.columns.headD default
/-- Answers for the C6 witness: a table description, a column description,
and no user-supplied business context. -/
def c6ua : String → Option AnnSvc.TableAnswers := fun n =>
  if n = "vehicles" then
    some { table_description := some ("Vehicle inventory records.")
           columnAnswers := fun c =>
             if c = "status" then
               some { description := some ("Indicates availability."), businessContext := none }
             else none }
  else none
/-- Answers for the C7 witness: the user's definition text names each of the
three discovered status values. -/
def c7uaGood : String → Option AnnSvc.TableAnswers := fun n =>
  if n = "vehicles" then
    some { table_description := some ("Vehicle inventory.")
           columnAnswers := fun c =>
             if c = "status" then
               some { description := some ("available means on the lot; sold means purchased; pending means awaiting paperwork.")
                      businessContext := none }
             else none }
  else none
/-- Answers for the C7 counterexample: every question is answered, but the
definition text does not name the enum values. -/
def c7uaBad : String → Option AnnSvc.TableAnswers := fun n =>
  if n = "vehicles" then
    some { table_description := some ("Vehicle inventory.")
           columnAnswers := fun c =>
             if c = "status" then
               some { description := some ("Indicates the current lifecycle stage of each vehicle listing.")
                      businessContext := some ("Sales pipeline tracking") }
             else none }
  else none

/-- `jsRound` agrees with Mathlib's `round` on `ℚ`. -/
theorem jsRound_eq_round (q : ℚ) : jsRound q = round q := by
  rw [jsRound, round_eq, Rat.floor_def', Rat.floor_def]

/-- `jsFloor` agrees with Mathlib's `Int.floor` on `ℚ`. -/
theorem jsFloor_eq_floor (q : ℚ) : jsFloor q = ⌊q⌋ := by
  rw [jsFloor, Rat.floor_def', Rat.floor_def]

/-- Membership in a zip, phrased positionally. -/
theorem forall_zip_getElem {α β : Type} (a : List α) (b : List β) (p : α × β → Bool) :
    (∀ x ∈ a.zip b, p x = true) ↔
      ∀ i (h₁ : i < a.length) (h₂ : i < b.length), p (a[i], b[i]) = true := by
  constructor
  · intro h i h₁ h₂
    apply h
    rw [List.mem_iff_getElem]
    refine ⟨i, ?_, ?_⟩
    · rw [List.length_zip]
      exact lt_min h₁ h₂
    · rw [List.getElem_zip]
  · intro h x hx
    rw [List.mem_iff_getElem] at hx
    obtain ⟨i, hi, rfl⟩ := hx
    rw [List.length_zip, lt_min_iff] at hi
    rw [List.getElem_zip]
    exact h i hi.1 hi.2

/-- C1.  Corrected form of the reference-result scoring contract of
`compareResults` (src/unnamed/part_008, lines 229-274).  A comparison is
scored correct iff the row counts agree, every row matches its positional
partner under `JSON.stringify` equality, AND the actual result is non-empty
(the `actualRows > 0` conjunct of `exactMatch`, which the original claim
omits: see the counterexample on two empty result sets).  For the two-row
reversed-order example of the spec, the verdict is incorrect and the first
recorded mismatch reason names row index 1. -/
theorem claim_C1_compare_results_order_sensitive :
    (∀ (actual expected : List JRow),
      (SpiderEval.compareResults (some actual) (some expected)).exactMatch = true ↔
        (actual.length = expected.length ∧ 0 < actual.length ∧
          ∀ i (h₁ : i < actual.length) (h₂ : i < expected.length),
            jsonStringify actual[i] = jsonStringify expected[i])) ∧
    (SpiderEval.compareResults
        (some [[("a", JVal.num 2)], [("a", JVal.num 1)]])
        (some [[("a", JVal.num 1)], [("a", JVal.num 2)]])).exactMatch = false ∧
    (SpiderEval.compareResults
        (some [[("a", JVal.num 2)], [("a", JVal.num 1)]])
        (some [[("a", JVal.num 1)], [("a", JVal.num 2)]])).differences.head? =
      some ("Row 1: expected \x7b\"a\":1\x7d, got \x7b\"a\":2\x7d") := by
  refine ⟨?_, by decide, by decide⟩
  intro actual expected
  by_cases hlen : actual.length = expected.length
  · simp only [SpiderEval.compareResults]
    rw [if_neg (not_not_intro hlen)]
    have hz : (actual.zip expected).length = actual.length := by
      rw [List.length_zip, hlen, min_self]
    simp only [Bool.and_eq_true, beq_iff_eq, decide_eq_true_eq]
    constructor
    · rintro ⟨hcount, hpos⟩
      refine ⟨hlen, hpos, ?_⟩
      have hmem := List.countP_eq_length.mp (by rw [hz]; exact hcount)
      intro i h₁ h₂
      have h := (forall_zip_getElem actual expected SpiderEval.rowEqB).mp hmem i h₁ h₂
      simpa [SpiderEval.rowEqB] using h
    · rintro ⟨-, hpos, hall⟩
      refine ⟨?_, hpos⟩
      rw [← hz]
      apply List.countP_eq_length.mpr
      apply (forall_zip_getElem actual expected SpiderEval.rowEqB).mpr
      intro i h₁ h₂
      simpa [SpiderEval.rowEqB] using hall i h₁ h₂
  · simp only [SpiderEval.compareResults]
    rw [if_pos hlen]
    simp [hlen]

/-- C1 witness: the general direction of the corrected contract applied to a
concrete matching one-row comparison. -/
theorem claim_C1_witness :
    (SpiderEval.compareResults (some [[("a", JVal.num 7)]])
      (some [[("a", JVal.num 7)]])).exactMatch = true :=
  (claim_C1_compare_results_order_sensitive.1 [[("a", JVal.num 7)]]
    [[("a", JVal.num 7)]]).mpr ⟨rfl, by decide, by decide⟩

/-- C1 counterexample: on two EMPTY result sets the row counts agree and no
row mismatches (there are no differences and every row matches:
`matchCount` equals the row count), yet the comparison is scored incorrect —
so "correct iff counts match and all rows match positionally", as stated, is
false at this input. -/
theorem claim_C1_counterexample :
    (SpiderEval.compareResults (some ([] : List JRow)) (some [])).exactMatch = false ∧
    (SpiderEval.compareResults (some ([] : List JRow)) (some [])).differences = [] ∧
    (SpiderEval.compareResults (some ([] : List JRow)) (some [])).matchCount =
      ([] : List JRow).length := by
  decide

/-- C10.  When both the actual and the expected result set are empty, the
Scorer's `compareResults` (src/unnamed/part_008, lines 251-273) returns
`exactMatch = false` and `score = 0` even though the row counts match: the
`actualRows > 0` guards make an empty reference result unscoreable as
correct. -/
theorem claim_C10_empty_result_sets_scored_incorrect :
    (SpiderEval.compareResults (some ([] : List JRow)) (some [])).exactMatch = false ∧
    (SpiderEval.compareResults (some ([] : List JRow)) (some [])).score = 0 := by
  constructor
  · decide
  · simp only [SpiderEval.compareResults]
    norm_num [jsRound_eq_round]

/-- C2.  Corrected form of the best-variant contract of the hard-coded query
records of `generateRealisticSQLQueries` (src/lib/evaluationService.ts).
For every query of every database, the reported `bestPerformingSchema` is a
variant whose outcome is marked correct, and when all three variants are
correct, `raw` is reported; but the cheapest-correct tie-break does NOT hold
in general (see the counterexample: a question with hypothesis and annotated
correct but raw incorrect reports `annotated`). -/
theorem claim_C2_best_variant_is_correct (database : Database) :
    ∀ q ∈ EvalSvc.generateRealisticSQLQueries database,
      (EvalSvc.variantOutcome q q.bestPerformingSchema).is_correct = true ∧
      (q.schemaResults.raw.is_correct = true →
        q.bestPerformingSchema = EvalSvc.Variant.raw) := by
  unfold EvalSvc.generateRealisticSQLQueries
  split
  · decide
  · decide

/-- C2 witness: the first `car_1` query (hypothesis and annotated correct,
raw incorrect) reports `hypothesis`, a correct variant. -/
theorem claim_C2_witness :
    ((EvalSvc.generateRealisticSQLQueries ⟨"car_1", "Car Dealership 1", "Medium", 7⟩).headD
      default).bestPerformingSchema = EvalSvc.Variant.hypothesis ∧
    (EvalSvc.variantOutcome
      ((EvalSvc.generateRealisticSQLQueries ⟨"car_1", "Car Dealership 1", "Medium", 7⟩).headD
        default)
      EvalSvc.Variant.hypothesis).is_correct = true := by
  constructor
  · decide
  · have h := (claim_C2_best_variant_is_correct ⟨"car_1", "Car Dealership 1", "Medium", 7⟩
      ((EvalSvc.generateRealisticSQLQueries ⟨"car_1", "Car Dealership 1", "Medium", 7⟩).headD
        default)
      (by decide)).1
    have hb : ((EvalSvc.generateRealisticSQLQueries
        ⟨"car_1", "Car Dealership 1", "Medium", 7⟩).headD default).bestPerformingSchema =
        EvalSvc.Variant.hypothesis := by decide
    rw [hb] at h
    exact h

/-- C2 counterexample: the second `car_1` query has hypothesis and annotated
correct and raw incorrect, yet reports `annotated` as best — not the
claimed cheapest correct variant `hypothesis`. -/
theorem claim_C2_counterexample :
    ((EvalSvc.generateRealisticSQLQueries ⟨"car_1", "Car Dealership 1", "Medium", 7⟩)[1]?).map
      (fun q => (q.schemaResults.hypothesis.is_correct, q.schemaResults.annotated.is_correct,
        q.schemaResults.raw.is_correct, q.bestPerformingSchema)) =
      some (true, true, false, EvalSvc.Variant.annotated) := by
  decide


/-- The question recorded in a loop entry is the processed question. -/
theorem SpiderApi.processQuestion_question (genF : String → Except String String)
    (execF : String → Except String ℕ) (q : String) :
    (SpiderApi.processQuestion genF execF q).question = q := by
  unfold SpiderApi.processQuestion
  cases genF q with
  | error msg => rfl
  | ok g => cases hexec : execF (SpiderApi.cleanSQL (jsTrim g)) <;> simp [hexec]

/-- C3.  In the per-question loop of the spider-evaluation API handler
(pages/api/spider-evaluation.ts, lines 48-104), every question produces
exactly one result entry in order (the left conjunct: no question-level
failure aborts or skips the remaining questions), and an entry whose
generation or execution failed is recorded with `executionSuccess = false`
and a non-empty error reason. -/
theorem claim_C3_per_question_errors_isolated (genF : String → Except String String)
    (execF : String → Except String ℕ) (questions : List String) :
    (SpiderApi.handlerLoop genF execF questions).map (fun r => r.question) = questions ∧
    ∀ r ∈ SpiderApi.handlerLoop genF execF questions,
      r.executionSuccess = !SpiderApi.questionFails genF execF r.question ∧
      (SpiderApi.questionFails genF execF r.question = true → r.error ≠ none) := by
  constructor
  · rw [SpiderApi.handlerLoop, List.map_map]
    have : ((fun r => SpiderApi.ResultEntry.question r) ∘ SpiderApi.processQuestion genF execF)
        = id := by
      funext q
      exact SpiderApi.processQuestion_question genF execF q
    rw [this, List.map_id]
  · intro r hr
    rw [SpiderApi.handlerLoop, List.mem_map] at hr
    obtain ⟨q, hq, rfl⟩ := hr
    rw [SpiderApi.processQuestion_question]
    unfold SpiderApi.processQuestion SpiderApi.questionFails
    cases hgen : genF q with
    | error msg => simp
    | ok g =>
      cases hexec : execF (SpiderApi.cleanSQL (jsTrim g)) with
      | error msg => simp [hexec, Except.isOk, Except.toBool]
      | ok rows => simp [hexec, Except.isOk, Except.toBool]



/-- C3 witness: with a failing first question, both questions still produce
entries in order, and the failing one is recorded as unsuccessful with an
error reason. -/
theorem claim_C3_witness :
    (SpiderApi.handlerLoop c3genF c3execF ["q1", "q2"]).map (fun r => r.question)
      = ["q1", "q2"] ∧
    ((SpiderApi.handlerLoop c3genF c3execF ["q1", "q2"]).headD default).executionSuccess
      = false ∧
    ((SpiderApi.handlerLoop c3genF c3execF ["q1", "q2"]).headD default).error ≠ none := by
  refine ⟨(claim_C3_per_question_errors_isolated c3genF c3execF ["q1", "q2"]).1, ?_, ?_⟩
  · have h := ((claim_C3_per_question_errors_isolated c3genF c3execF ["q1", "q2"]).2
      ((SpiderApi.handlerLoop c3genF c3execF ["q1", "q2"]).headD default) (by decide)).1
    rw [h]
    decide
  · exact ((claim_C3_per_question_errors_isolated c3genF c3execF ["q1", "q2"]).2
      ((SpiderApi.handlerLoop c3genF c3execF ["q1", "q2"]).headD default) (by decide)).2
      (by decide)


/-- C4.  Both annotation generators fall back to the deterministic heuristic
annotations whenever the model-backed call cannot deliver: in
`generateStandardAnnotations` (src/unnamed/part_007, lines 146-193) a
missing or empty API key, a thrown fetch, a non-ok response and an
unparseable body all yield `generateEnhancedAnnotations`; in the older
`generateDatabaseAnnotations` (annotationService.ts, catch block at lines
92-100), any model-path failure after a successful schema fetch returns the
heuristic annotations (without sample data) as a non-error result — the
function never throws because of a failed model call. -/
theorem claim_C4_model_failure_heuristic_fallback :
    (∀ (database : Database) (schemaInfo : SchemaInfo)
        (sampleData : List GenAnn.SampleEntry) (geminiApiKey : Option String)
        (httpOutcome : Except String GeminiHttp),
      (geminiApiKey = none ∨ geminiApiKey = some "" ∨
          modelPipelineFails schemaInfo httpOutcome) →
      GenAnn.generateStandardAnnotations database schemaInfo sampleData geminiApiKey
          httpOutcome =
        GenAnn.generateEnhancedAnnotations database schemaInfo (some sampleData)) ∧
    (∀ (database : Database) (schemaInfo : SchemaInfo)
        (sampleData : List GenAnn.SampleEntry) (httpOutcome : Except String GeminiHttp),
      modelPipelineFails schemaInfo httpOutcome →
      AnnSvcLegacy.generateDatabaseAnnotations database (.ok schemaInfo) sampleData true
          httpOutcome =
        .ok (AnnSvcLegacy.generateEnhancedAnnotations database (some schemaInfo) none)) := by
  constructor
  · intro database schemaInfo sampleData geminiApiKey httpOutcome hfail
    unfold GenAnn.generateStandardAnnotations
    rcases hfail with rfl | rfl | hfail
    · rfl
    · simp
    · cases httpOutcome with
      | error e => cases geminiApiKey with
        | none => rfl
        | some key => by_cases hk : key = "" <;> simp [hk]
      | ok response =>
        cases geminiApiKey with
        | none => rfl
        | some key =>
          dsimp only
          by_cases hk : key = ""
          · simp [hk]
          · rw [if_neg hk]
            rcases hfail with hok | hparse
            · simp [hok]
            · cases hro : response.ok with
              | false => simp [hro]
              | true =>
                simp only [hro, Bool.not_true, Bool.false_eq_true, if_false]
                cases hp : parseAnnotationsFromGeminiResponse response.body schemaInfo with
                | error e => simp [hp]
                | ok anns => rw [hp] at hparse; simp [Except.isOk, Except.toBool] at hparse
  · intro database schemaInfo sampleData httpOutcome hfail
    unfold AnnSvcLegacy.generateDatabaseAnnotations
    cases httpOutcome with
    | error e => simp
    | ok response =>
      rcases hfail with hok | hparse
      · simp [hok]
      · cases hp : parseAnnotationsFromGeminiResponse response.body schemaInfo with
        | error e => simp [hp]
        | ok anns => rw [hp] at hparse; simp [Except.isOk, Except.toBool] at hparse



/-- C4 witness: with a configured key and an unparseable model response,
both generators return exactly their heuristic annotations. -/
theorem claim_C4_witness :
    GenAnn.generateStandardAnnotations ⟨"academic", "Academic", "Easy", 1⟩ c4si []
        (some ("test-key")) c4http =
      GenAnn.generateEnhancedAnnotations ⟨"academic", "Academic", "Easy", 1⟩ c4si (some []) ∧
    AnnSvcLegacy.generateDatabaseAnnotations ⟨"academic", "Academic", "Easy", 1⟩ (.ok c4si)
        [] true c4http =
      .ok (AnnSvcLegacy.generateEnhancedAnnotations ⟨"academic", "Academic", "Easy", 1⟩
        (some c4si) none) := by
  constructor
  · exact claim_C4_model_failure_heuristic_fallback.1 ⟨"academic", "Academic", "Easy", 1⟩
      c4si [] (some ("test-key")) c4http (Or.inr (Or.inr (Or.inr rfl)))
  · exact claim_C4_model_failure_heuristic_fallback.2 ⟨"academic", "Academic", "Easy", 1⟩
      c4si [] c4http (Or.inr rfl)

/-- The clamp `Math.max(lo, Math.min(x, 95))` stays within `[lo, 95]`. -/
theorem clamp_bounds (lo x : ℚ) (hlo : 0 ≤ lo) (hhi : lo ≤ 95) :
    0 ≤ max lo (min x 95) ∧ max lo (min x 95) ≤ 95 :=
  ⟨le_trans hlo (le_max_left _ _), max_le hhi (min_le_right _ _)⟩

/-- `Math.round((a / 100) * T)` stays within `[0, T]` for an accuracy
`a ∈ [0, 95]` and a nonnegative count `T`. -/
theorem round_share_bounds (a : ℚ) (T : ℤ) (hT : 0 ≤ T) (h0 : 0 ≤ a) (h95 : a ≤ 95) :
    0 ≤ jsRound (a / 100 * (T : ℚ)) ∧ jsRound (a / 100 * (T : ℚ)) ≤ T := by
  have hTq : (0 : ℚ) ≤ (T : ℚ) := by exact_mod_cast hT
  have harg : (0 : ℚ) ≤ a / 100 * (T : ℚ) :=
    mul_nonneg (div_nonneg h0 (by norm_num)) hTq
  constructor
  · rw [jsRound_eq_round, round_eq]
    exact Int.floor_nonneg.mpr (by linarith)
  · rw [jsRound_eq_round, round_eq]
    have : ⌊a / 100 * (T : ℚ) + 1 / 2⌋ < T + 1 := by
      rw [Int.floor_lt]
      push_cast
      have hmul : a / 100 * (T : ℚ) ≤ 95 / 100 * (T : ℚ) := by
        apply mul_le_mul_of_nonneg_right _ hTq
        linarith
      nlinarith
    omega

/-- The test-case count is nonnegative for random draws in `[0, 1)`. -/
theorem getTestCaseCount_nonneg (difficulty : String) (rEasy rMedium rHard : ℚ)
    (h1 : 0 ≤ rEasy) (h2 : 0 ≤ rMedium) (h3 : 0 ≤ rHard) :
    0 ≤ EvalSvc.getTestCaseCount difficulty rEasy rMedium rHard := by
  unfold EvalSvc.getTestCaseCount
  have f1 : 0 ≤ jsFloor (rEasy * 30) := by
    rw [jsFloor_eq_floor]; exact Int.floor_nonneg.mpr (by positivity)
  have f2 : 0 ≤ jsFloor (rMedium * 20) := by
    rw [jsFloor_eq_floor]; exact Int.floor_nonneg.mpr (by positivity)
  have f3 : 0 ≤ jsFloor (rHard * 15) := by
    rw [jsFloor_eq_floor]; exact Int.floor_nonneg.mpr (by positivity)
  split
  · omega
  · split
    · omega
    · split
      · omega
      · omega

/-- C5.  Corrected form of the report invariants.  For every difficulty and
all random draws (the count draws in `[0, 1)`), each entry of
`generateSchemaResults` has `0 ≤ accuracy ≤ 100` (in fact within `[10, 95]`)
and `0 ≤ correctQueries ≤ T` for the test-case count `T` drawn inside that
same call; and the Scorer's `compareResults` score always lies in
`[0, 100]`, with the empty result set scoring exactly 0 (no division by
zero: the `actualRows > 0` guard).  The original claim's
`correctCount ≤ totalQuestions` against the REPORTED `totalQueries` fails,
because `runSpiderEvaluation` draws that total in a second, independent
`getTestCaseCount` call: see the counterexample. -/
theorem claim_C5_accuracy_bounds :
    (∀ (difficulty : String) (r : EvalSvc.SchemaResultsRands),
      0 ≤ r.tEasy → 0 ≤ r.tMedium → 0 ≤ r.tHard →
      ∀ e ∈ EvalSvc.generateSchemaResults difficulty r,
        0 ≤ e.accuracy ∧ e.accuracy ≤ 100 ∧ 0 ≤ e.correctQueries ∧
          e.correctQueries ≤ EvalSvc.getTestCaseCount difficulty r.tEasy r.tMedium r.tHard) ∧
    (∀ (actual expected : List JRow),
      0 ≤ (SpiderEval.compareResults (some actual) (some expected)).score ∧
      (SpiderEval.compareResults (some actual) (some expected)).score ≤ 100) ∧
    (SpiderEval.compareResults (some ([] : List JRow)) (some [])).score = 0 := by
  refine ⟨?_, ?_, claim_C10_empty_result_sets_scored_incorrect.2⟩
  · intro difficulty r h1 h2 h3 e he
    have hT := getTestCaseCount_nonneg difficulty r.tEasy r.tMedium r.tHard h1 h2 h3
    simp only [EvalSvc.generateSchemaResults, List.mem_cons, List.not_mem_nil, or_false]
      at he
    rcases he with rfl | rfl | rfl
    all_goals
      refine ⟨(clamp_bounds _ _ (by norm_num) (by norm_num)).1,
        le_trans (clamp_bounds _ _ (by norm_num) (by norm_num)).2 (by norm_num),
        (round_share_bounds _ _ hT (clamp_bounds _ _ (by norm_num) (by norm_num)).1
          (clamp_bounds _ _ (by norm_num) (by norm_num)).2).1,
        (round_share_bounds _ _ hT (clamp_bounds _ _ (by norm_num) (by norm_num)).1
          (clamp_bounds _ _ (by norm_num) (by norm_num)).2).2⟩
  · intro actual expected
    by_cases hlen : actual.length = expected.length
    · simp only [SpiderEval.compareResults]
      rw [if_neg (not_not_intro hlen)]
      set m := List.countP SpiderEval.rowEqB (actual.zip expected) with hm
      have hm_le : m ≤ actual.length := by
        rw [hm]
        calc List.countP SpiderEval.rowEqB (actual.zip expected)
            ≤ (actual.zip expected).length := List.countP_le_length _
          _ ≤ actual.length := by rw [List.length_zip]; exact min_le_left _ _
      set s : ℚ := if actual.length > 0 then ((m : ℚ) / (actual.length : ℚ)) * 100 else 0
        with hs
      have hs0 : 0 ≤ s := by
        rw [hs]
        split
        · positivity
        · exact le_refl 0
      have hs100 : s ≤ 100 := by
        rw [hs]
        split
        · rename_i hpos
          have hlq : (0 : ℚ) < (actual.length : ℚ) := by exact_mod_cast hpos
          have : (m : ℚ) / (actual.length : ℚ) ≤ 1 := by
            rw [div_le_one hlq]
            exact_mod_cast hm_le
          linarith
        · norm_num
      have hr0 : 0 ≤ jsRound (s * 100) := by
        rw [jsRound_eq_round, round_eq]
        exact Int.floor_nonneg.mpr (by linarith)
      have hr1 : jsRound (s * 100) ≤ 10000 := by
        rw [jsRound_eq_round, round_eq]
        have : ⌊s * 100 + 1 / 2⌋ < (10001 : ℤ) := by
          rw [Int.floor_lt]
          push_cast
          nlinarith
        omega
      dsimp only
      constructor
      · have h := hr0
        have : (0 : ℚ) ≤ (jsRound (s * 100) : ℚ) := by exact_mod_cast hr0
        positivity
      · have hq : (jsRound (s * 100) : ℚ) ≤ 10000 := by exact_mod_cast hr1
        rw [div_le_iff (by norm_num : (0:ℚ) < 100)]
        linarith
    · simp only [SpiderEval.compareResults]
      rw [if_pos hlen]
      dsimp only
      norm_num

/-- C5 witness: the per-call bounds applied at difficulty `Easy` with
concrete draws. -/
theorem claim_C5_witness :
    ∀ e ∈ EvalSvc.generateSchemaResults ("Easy")
        { tEasy := 1/2, tMedium := 0, tHard := 0, aEasy := 1/2, aMedium := 0,
          aHard := 0, rawOff := 1/2, hypBonus := 1/2, annBonus := 1/2 },
      0 ≤ e.accuracy ∧ e.accuracy ≤ 100 ∧ 0 ≤ e.correctQueries ∧
        e.correctQueries ≤ EvalSvc.getTestCaseCount ("Easy") (1/2) 0 0 :=
  claim_C5_accuracy_bounds.1 ("Easy")
    { tEasy := 1/2, tMedium := 0, tHard := 0, aEasy := 1/2, aMedium := 0,
      aHard := 0, rawOff := 1/2, hypBonus := 1/2, annBonus := 1/2 }
    (by norm_num) (by norm_num) (by norm_num)

/-- C5 counterexample: with the schema-results call drawing a test-case
count of 79 (`tEasy = 999/1000`) and an annotated accuracy clamped to 95,
the annotated entry reports `correctQueries = 75`, while the SECOND
`getTestCaseCount` call that fills the report's `totalQueries` draws 50 —
so `correctCount ≤ totalQuestions` fails on the report. -/
theorem claim_C5_counterexample :
    (((EvalSvc.runSpiderEvaluationCounts ("Easy")
        { tEasy := 999/1000, tMedium := 0, tHard := 0, aEasy := 1/2, aMedium := 0,
          aHard := 0, rawOff := 0, hypBonus := 0, annBonus := 1/4 } 0 0 0).schemaResults.map
      (fun e => e.correctQueries))[2]?) = some 75 ∧
    (EvalSvc.runSpiderEvaluationCounts ("Easy")
        { tEasy := 999/1000, tMedium := 0, tHard := 0, aEasy := 1/2, aMedium := 0,
          aHard := 0, rawOff := 0, hypBonus := 0, annBonus := 1/4 } 0 0 0).totalQueries = 50 ∧
    (50 : ℤ) < 75 := by
  refine ⟨?_, ?_, by norm_num⟩
  · simp only [EvalSvc.runSpiderEvaluationCounts, EvalSvc.generateSchemaResults,
      EvalSvc.calculateAccuracy, EvalSvc.getTestCaseCount, List.map_cons, List.map_nil]
    norm_num [jsRound_eq_round, jsFloor_eq_floor, round_eq, min_def, max_def]
  · simp only [EvalSvc.runSpiderEvaluationCounts, EvalSvc.getTestCaseCount]
    norm_num [jsFloor_eq_floor]

/-- Appending one trailing space does not change a trim. -/
theorem trimList_append_space (l : List Char) : trimList (l ++ [' ']) = trimList l := by
  unfold trimList
  rw [List.dropWhile_append]
  by_cases h : (l.dropWhile isWs).isEmpty
  · rw [if_pos h]
    rw [List.isEmpty_iff] at h
    rw [h]
    simp [List.dropWhile_cons, isWs]
  · rw [if_neg h]
    rw [List.reverse_append]
    simp [List.dropWhile_cons, isWs]

/-- `jsTrim` absorbs a trailing space. -/
theorem jsTrim_append_space (s : String) : jsTrim (s ++ " ") = jsTrim s := by
  unfold jsTrim
  rw [String.data_append]
  exact congrArg String.mk (trimList_append_space s.data)

/-- A nonempty pattern none of whose characters satisfies `p` survives
`dropWhile p`. -/
theorem infix_dropWhile (p : Char → Bool) (v : List Char) (hv : v ≠ [])
    (hvp : ∀ c ∈ v, p c = false) :
    ∀ l : List Char, v <:+: l → v <:+: l.dropWhile p := by
  intro l
  induction l with
  | nil =>
    intro h
    rw [List.infix_nil] at h
    exact absurd h hv
  | cons a t ih =>
    intro h
    rw [List.dropWhile_cons]
    split
    · rename_i hpa
      apply ih
      rcases List.infix_cons_iff.mp h with hpre | hinf
      · exfalso
        cases v with
        | nil => exact hv rfl
        | cons b v' =>
          have hb := (List.cons_prefix_cons.mp hpre).1
          have hpb := hvp b (List.mem_cons_self b v')
          rw [hb, hpa] at hpb
          exact absurd hpb (by simp)
      · exact hinf
    · exact h

/-- A nonempty, whitespace-free pattern survives a JavaScript trim. -/
theorem infix_trimList (v l : List Char) (hv : v ≠ [])
    (hws : ∀ c ∈ v, isWs c = false) (h : v <:+: l) : v <:+: trimList l := by
  unfold trimList
  have h1 : v <:+: l.dropWhile isWs := infix_dropWhile isWs v hv hws l h
  have h2 : v.reverse <:+: (l.dropWhile isWs).reverse := by
    rw [List.reverse_infix]
    exact h1
  have h3 : v.reverse <:+: ((l.dropWhile isWs).reverse).dropWhile isWs :=
    infix_dropWhile isWs v.reverse (by simpa using hv)
      (fun c hc => hws c (List.mem_reverse.mp hc)) _ h2
  have h4 : v.reverse.reverse <:+: (((l.dropWhile isWs).reverse).dropWhile isWs).reverse := by
    rw [List.reverse_infix]
    exact h3
  simpa using h4

/-- The `i`-th reconciled annotation, written out: `Reconciler` output is a
per-table map, so entry `i` is the merge of question set `i` with that
table's answers. -/
theorem AnnSvc.reconciled_getElem (ir : AnnSvc.InteractiveAnnotationResult)
    (ua : String → Option AnnSvc.TableAnswers) (i : ℕ) (tq : AnnSvc.TableQuestionSet)
    (hq : ir.questions[i]? = some tq) :
    (AnnSvc.processUserAnswersAndGenerateAnnotations ir ua)[i]? =
      some
        { tableName := tq.table_name
          description := jsTrim (tq.table_hypothesis ++ " " ++
            jsOr ((ua tq.table_name).getD AnnSvc.emptyTableAnswers).table_description (""))
          columns := tq.columns.map (fun col =>
            { name := col.column_name
              type := col.data_type
              description := jsTrim (col.hypothesis ++ " " ++
                jsOr ((((ua tq.table_name).getD AnnSvc.emptyTableAnswers).columnAnswers
                  col.column_name).bind (fun a => a.description)) (""))
              businessContext := some (jsOr
                ((((ua tq.table_name).getD AnnSvc.emptyTableAnswers).columnAnswers
                  col.column_name).bind (fun a => a.businessContext))
                ("Part of " ++ tq.table_name ++ " entity definition")) }) } := by
  unfold AnnSvc.processUserAnswersAndGenerateAnnotations
  rw [List.getElem?_map, hq]
  rfl

/-- C6.  The Reconciler's merge (annotationService.ts, lines 422-451): the
final table description is `trim(tableHypothesis + ' ' + the table-level
free-text answer)`, each column description is `trim(columnHypothesis + ' '
+ the column free-text answer)`, `businessContext` is the user's text or
defaults to `Part of <table> entity definition`, and a table with no
answers at all keeps its (already trimmed) hypothesis unchanged. -/
theorem claim_C6_reconciler_merge (ir : AnnSvc.InteractiveAnnotationResult)
    (ua : String → Option AnnSvc.TableAnswers) (i : ℕ) (tq : AnnSvc.TableQuestionSet)
    (hq : ir.questions[i]? = some tq) :
    (((AnnSvc.processUserAnswersAndGenerateAnnotations ir ua)[i]?).map
        (fun t => t.description)) =
      some (jsTrim (tq.table_hypothesis ++ " " ++
        jsOr ((ua tq.table_name).getD AnnSvc.emptyTableAnswers).table_description (""))) ∧
    (∀ (j : ℕ) (colq : AnnSvc.ColumnQuestion), tq.columns[j]? = some colq →
      ((((AnnSvc.processUserAnswersAndGenerateAnnotations ir ua)[i]?).bind
          (fun t => t.columns[j]?)).map
        (fun c => (c.description, c.businessContext))) =
        some (jsTrim (colq.hypothesis ++ " " ++
            jsOr ((((ua tq.table_name).getD AnnSvc.emptyTableAnswers).columnAnswers
              colq.column_name).bind (fun a => a.description)) ("")),
          some (jsOr ((((ua tq.table_name).getD AnnSvc.emptyTableAnswers).columnAnswers
              colq.column_name).bind (fun a => a.businessContext))
            ("Part of " ++ tq.table_name ++ " entity definition")))) ∧
    (ua tq.table_name = none → jsTrim tq.table_hypothesis = tq.table_hypothesis →
      (((AnnSvc.processUserAnswersAndGenerateAnnotations ir ua)[i]?).map
        (fun t => t.description)) = some tq.table_hypothesis) := by
  rw [AnnSvc.reconciled_getElem ir ua i tq hq]
  refine ⟨rfl, ?_, ?_⟩
  · intro j colq hcol
    dsimp only [Option.bind]
    rw [List.getElem?_map, hcol]
    rfl
  · intro hnone htrim
    dsimp only [Option.map]
    rw [hnone]
    dsimp only [Option.getD]
    have : jsOr AnnSvc.emptyTableAnswers.table_description ("") = "" := rfl
    rw [this]
    congr 1
    calc jsTrim (tq.table_hypothesis ++ " " ++ "")
        = jsTrim (tq.table_hypothesis ++ " ") := by rw [String.append_empty]
      _ = jsTrim tq.table_hypothesis := jsTrim_append_space tq.table_hypothesis
      _ = tq.table_hypothesis := htrim







/-- C6 witness: on the generated `vehicles.status` question set, the merge
produces `trim(hypothesis + ' ' + answer)` descriptions, the synthesized
business context, and — with an empty answer map — the table hypothesis
unchanged. -/
theorem claim_C6_witness :
    ((((AnnSvc.processUserAnswersAndGenerateAnnotations cxIr c6ua)[0]?).bind
        (fun t => t.columns[0]?)).map (fun c => c.businessContext)) =
      some (some ("Part of vehicles entity definition")) ∧
    (((AnnSvc.processUserAnswersAndGenerateAnnotations cxIr c6ua)[0]?).map
        (fun t => t.description)) =
      some (jsTrim (cxTq.table_hypothesis ++ " " ++ "Vehicle inventory records.")) ∧
    (((AnnSvc.processUserAnswersAndGenerateAnnotations cxIr (fun _ => none))[0]?).map
        (fun t => t.description)) = some cxTq.table_hypothesis := by
  have h := claim_C6_reconciler_merge cxIr c6ua 0 cxTq (by decide)
  have h2 := h.2.1 0 cxColq (by decide)
  refine ⟨?_, ?_, ?_⟩
  · cases ho : ((AnnSvc.processUserAnswersAndGenerateAnnotations cxIr c6ua)[0]?).bind
        (fun t => t.columns[0]?) with
    | none => rw [ho] at h2; simp at h2
    | some c0 =>
      rw [ho] at h2
      dsimp only [Option.map] at h2 ⊢
      rw [Option.some.injEq, Prod.mk.injEq] at h2
      rw [h2.2]
      decide
  · rw [h.1]
    decide
  · exact (claim_C6_reconciler_merge cxIr (fun _ => none) 0 cxTq (by decide)).2.2 rfl
      (by decide)

/-- C7.  Corrected round-trip property of the Reconciler's merge
(annotationService.ts, lines 422-451 with hypotheses from lines 513-548 and
788-796).  The merge drops `enum_values_found`: the final column description
is only `trim(hypothesis + ' ' + user answer)`, so an enum token appears in
it exactly insofar as the hypothesis or the answer text carries it.  This
theorem proves the preserved direction: any whitespace-free enum token that
occurs in the user's free-text definition survives into the final column
description; the counterexample shows the loss when the user's definition
does not name the values. -/
theorem claim_C7_enum_tokens_from_answer_preserved
    (ir : AnnSvc.InteractiveAnnotationResult) (ua : String → Option AnnSvc.TableAnswers)
    (i j : ℕ) (tq : AnnSvc.TableQuestionSet) (colq : AnnSvc.ColumnQuestion) (v : String)
    (hq : ir.questions[i]? = some tq) (hcol : tq.columns[j]? = some colq)
    (hv : v ∈ colq.enum_values_found) (hne : v ≠ "")
    (hws : ∀ c ∈ v.data, isWs c = false)
    (hinf : v.data <:+: (jsOr ((((ua tq.table_name).getD AnnSvc.emptyTableAnswers).columnAnswers
        colq.column_name).bind (fun a => a.description)) ("")).data) :
    ((((AnnSvc.processUserAnswersAndGenerateAnnotations ir ua)[i]?).bind
        (fun t => t.columns[j]?)).map
      (fun c => decide (v.data <:+: c.description.data))) = some true := by
  rw [AnnSvc.reconciled_getElem ir ua i tq hq]
  dsimp only [Option.bind]
  rw [List.getElem?_map, hcol]
  dsimp only [Option.map]
  rw [Option.some.injEq]
  apply decide_eq_true
  show v.data <:+: (jsTrim _).data
  unfold jsTrim
  have hvd : v.data ≠ [] := by
    intro h
    apply hne
    cases v with
    | mk d =>
      change d = [] at h
      rw [h]
  apply infix_trimList v.data _ hvd hws
  rw [String.data_append]
  exact List.IsInfix.trans hinf (List.suffix_append _ _).isInfix


/-- C7 witness: with a definition that names the values, the token
`available` survives into the reconciled `status` description. -/
theorem claim_C7_witness :
    ((((AnnSvc.processUserAnswersAndGenerateAnnotations cxIr c7uaGood)[0]?).bind
        (fun t => t.columns[0]?)).map
      (fun c => decide (("available").data <:+: c.description.data))) = some true :=
  claim_C7_enum_tokens_from_answer_preserved cxIr c7uaGood 0 0 cxTq cxColq ("available")
    (by decide) (by decide) (by decide) (by decide) (by decide) (by decide)


/-- C7 counterexample: the generated `status` column carries
`enum_values_found = [available, sold, pending]`, the user answers every
question with supplied definitions, yet the final description contains none
of the three tokens — the merge lost the enumeration information. -/
theorem claim_C7_counterexample :
    (((cxIr.questions[0]?).bind (fun tq => tq.columns[0]?)).map
        (fun c => c.enum_values_found)) = some ["available", "sold", "pending"] ∧
    ((((AnnSvc.processUserAnswersAndGenerateAnnotations cxIr c7uaBad)[0]?).bind
        (fun t => t.columns[0]?)).map
      (fun c => decide (("available").data <:+: c.description.data) ||
        decide (("sold").data <:+: c.description.data) ||
        decide (("pending").data <:+: c.description.data))) = some false := by
  decide

/-- C8.  Corrected enumerability classification of
`getEnumValuesForColumn` (annotationService.ts, lines 755-760): a column is
flagged enumerable (non-empty `enum_values_found`) exactly when its data
type contains `VARCHAR` AND its NAME matches one of the categorical
keywords status/type/category/color/make/model/gender/state
(case-insensitively) — and the sample list passed in is non-empty (the
sample generator always passes three values).  The
distinct-sample-count bound of the original
claim is never consulted (sample lists always carry exactly three values);
a textual column with ≤ 3 distinct samples but a non-categorical name is
NOT flagged (see the counterexample). -/
theorem claim_C8_enumerable_classification (col : Column) (sampleValues : List String) :
    AnnSvc.getEnumValuesForColumn col sampleValues ≠ [] ↔
      (strIncludes col.type ("VARCHAR") = true ∧
        AnnSvc.matchesEnumKeyword col.name = true ∧ sampleValues ≠ []) := by
  unfold AnnSvc.getEnumValuesForColumn
  split
  · rename_i hcond
    rw [Bool.and_eq_true] at hcond
    constructor
    · intro hne
      refine ⟨hcond.1, hcond.2, ?_⟩
      intro hnil
      rw [hnil] at hne
      simp at hne
    · rintro ⟨-, -, hnil⟩
      cases sampleValues with
      | nil => exact absurd rfl hnil
      | cons a t => simp [List.take]
  · rename_i hcond
    rw [Bool.and_eq_true] at hcond
    constructor
    · intro hne
      exact absurd rfl hne
    · rintro ⟨h1, h2, -⟩
      exact absurd ⟨h1, h2⟩ hcond

/-- C8 counterexample: `address` has a textual (VARCHAR) type and three
distinct sample values, yet is classified NOT enumerable because its name
matches no categorical keyword. -/
theorem claim_C8_counterexample :
    strIncludes ("VARCHAR(200)") ("VARCHAR") = true ∧
    (["Value1", "Value2", "Value3"].dedup.length ≤ 3) ∧
    AnnSvc.getEnumValuesForColumn
      { name := "address", type := "VARCHAR(200)", nullable := true }
      ["Value1", "Value2", "Value3"] = [] := by
  decide

/-- Looking up a row count by table name only depends on the
(tableName, rowCount) projection of the sample data. -/
theorem find?_rowCount_congr :
    ∀ (l₁ l₂ : List GenAnn.SampleEntry),
      l₁.map (fun s => (s.tableName, s.rowCount)) =
        l₂.map (fun s => (s.tableName, s.rowCount)) →
      ∀ nm : String,
        (l₁.find? (fun s => s.tableName == nm)).map (fun s => s.rowCount) =
          (l₂.find? (fun s => s.tableName == nm)).map (fun s => s.rowCount) := by
  intro l₁
  induction l₁ with
  | nil =>
    intro l₂ h nm
    cases l₂ with
    | nil => rfl
    | cons b t => simp at h
  | cons a t ih =>
    intro l₂ h nm
    cases l₂ with
    | nil => simp at h
    | cons b t₂ =>
      simp only [List.map_cons, List.cons.injEq, Prod.mk.injEq] at h
      obtain ⟨⟨hn, hrc⟩, ht⟩ := h
      rw [List.find?_cons, List.find?_cons, hn]
      cases hb : (b.tableName == nm) with
      | true =>
        simp only
        dsimp only [Option.map]
        rw [hrc]
      | false =>
        simp only
        exact ih t₂ ht nm

/-- C9.  Corrected determinism of the standard heuristic path
(src/unnamed/part_007: `getSampleDataFromTables` lines 127-144,
`generateEnhancedAnnotations` lines 308-323).  Two standard-mode heuristic
runs on the same schema snapshot produce identical Hypothesis annotations
whenever their random ROW-COUNT draws floor to the same values — the other
random draws (per-column `uniqueValues`, sample price values) never reach
the output.  The raw schema structure (table names, from the deterministic
schema fetch) is identical across runs regardless of any draw.  Runs are
NOT identical unconditionally: the `Math.random()`-based row count is
interpolated into every table description (see the counterexample). -/
theorem claim_C9_heuristic_determinism :
    (∀ (database : Database) (rowLimit : ℕ) (rc₁ rc₂ : ℕ → ℚ) (uv₁ uv₂ : ℕ → ℕ → ℚ)
        (pr₁ pr₂ : ℕ → ℕ → String → ℚ),
      (∀ i, i < (GenAnn.generateRealisticSchema database).length →
        jsFloor (rc₁ i * 10000) = jsFloor (rc₂ i * 10000)) →
      GenAnn.standardHeuristicRun database rowLimit rc₁ uv₁ pr₁ =
        GenAnn.standardHeuristicRun database rowLimit rc₂ uv₂ pr₂) ∧
    (∀ (database : Database) (rowLimit : ℕ) (rc : ℕ → ℚ) (uv : ℕ → ℕ → ℚ)
        (pr : ℕ → ℕ → String → ℚ),
      (GenAnn.standardHeuristicRun database rowLimit rc uv pr).map (fun t => t.tableName) =
        (GenAnn.generateRealisticSchema database).map (fun t => t.name)) := by
  constructor
  · intro database rowLimit rc₁ rc₂ uv₁ uv₂ pr₁ pr₂ h
    unfold GenAnn.standardHeuristicRun GenAnn.generateEnhancedAnnotations
    apply List.map_congr_left
    intro t ht
    have hproj :
        (GenAnn.getSampleDataFromTables (GenAnn.getActualDatabaseSchema database).tables
            rowLimit rc₁ uv₁ pr₁).map (fun s => (s.tableName, s.rowCount)) =
        (GenAnn.getSampleDataFromTables (GenAnn.getActualDatabaseSchema database).tables
            rowLimit rc₂ uv₂ pr₂).map (fun s => (s.tableName, s.rowCount)) := by
      apply List.ext_getElem
      · simp [GenAnn.getSampleDataFromTables]
      · intro n h₁ h₂
        simp only [List.getElem_map, GenAnn.getSampleDataFromTables, List.getElem_mapIdx]
        have hn : n < (GenAnn.generateRealisticSchema database).length := by
          simpa [GenAnn.getSampleDataFromTables, GenAnn.getActualDatabaseSchema] using h₁
        rw [h n hn]
    have hopt := find?_rowCount_congr _ _ hproj t.name
    dsimp only [Option.bind]
    rw [hopt]
  · intro database rowLimit rc uv pr
    unfold GenAnn.standardHeuristicRun GenAnn.generateEnhancedAnnotations
    rw [List.map_map]
    apply List.map_congr_left
    intro t ht
    rfl

/-- C9 witness: with equal row-count draws but different uniqueValues and
price draws, the two heuristic runs coincide. -/
theorem claim_C9_witness :
    GenAnn.standardHeuristicRun ⟨"car-dealership", "Car Dealership", "Medium", 7⟩ 5
        (fun _ => 0) (fun _ _ => 0) (fun _ _ _ => 0) =
      GenAnn.standardHeuristicRun ⟨"car-dealership", "Car Dealership", "Medium", 7⟩ 5
        (fun _ => 0) (fun _ _ => 1/2) (fun _ _ _ => 1/2) :=
  claim_C9_heuristic_determinism.1 ⟨"car-dealership", "Car Dealership", "Medium", 7⟩ 5
    (fun _ => 0) (fun _ => 0) (fun _ _ => 0) (fun _ _ => 1/2) (fun _ _ _ => 0)
    (fun _ _ _ => 1/2) (fun _ _ => rfl)

/-- C9 counterexample: two standard-mode heuristic runs of the same snapshot
whose row-count draws floor to 100 and 101 produce different annotation
sets (the row count is interpolated into the table description), so
re-running the standard path is not reproducible. -/
theorem claim_C9_counterexample :
    GenAnn.standardHeuristicRun ⟨"x", "X", "Easy", 1⟩ 1 (fun _ => 0) (fun _ _ => 0)
        (fun _ _ _ => 0) ≠
      GenAnn.standardHeuristicRun ⟨"x", "X", "Easy", 1⟩ 1 (fun _ => 1/10000) (fun _ _ => 0)
        (fun _ _ _ => 0) := by
  have hz : (jsFloor ((0 : ℚ) * 10000)).toNat + 100 = 100 := by
    norm_num [jsFloor_eq_floor]
  have ho : (jsFloor ((1/10000 : ℚ) * 10000)).toNat + 100 = 101 := by
    norm_num [jsFloor_eq_floor]
  have hu : (jsFloor ((0 : ℚ) * 50)).toNat + 1 = 1 := by
    norm_num [jsFloor_eq_floor]
  simp only [GenAnn.standardHeuristicRun, GenAnn.getSampleDataFromTables, hz, ho, hu]
  decide
